import Mathlib

/-!
Verification of the Telegram personal diary bot (src/bot.py).

The program's text processing is modelled over `List Char` (Python `str`
values, one element per code point).  Pure functions of the source are
translated directly; the conversation handlers, which perform Telegram and
filesystem side effects, are modelled as functions returning explicit
records of the state transition and of the side effects they would perform.
-/

set_option maxRecDepth 8192

namespace DiaryBot

/-! ### Basic string operations (Python str methods over List Char) -/

/-- Whitespace class used by Python `str.strip()` with no argument
(ASCII whitespace: space, tab, newline, carriage return, vertical tab,
form feed). -/
def isSpaceChar (c : Char) : Bool :=
  c == ' ' || c == '\t' || c == '\n' || c == '\r' || c == Char.ofNat 11 || c == Char.ofNat 12

/-- Python `str.strip()`: remove leading and trailing whitespace. -/
def strip (s : List Char) : List Char :=
  ((s.dropWhile isSpaceChar).reverse.dropWhile isSpaceChar).reverse

/-- Index of the first occurrence of pattern `p` in `t`: Python `t.find(p)`
when the pattern occurs, `none` otherwise.  `(findIdx? p t).isSome` models
Python `p in t`. -/
def findIdx? (p : List Char) : List Char → Option Nat
  | [] => if p.isPrefixOf [] then some 0 else none
  | c :: t => if p.isPrefixOf (c :: t) then some 0 else (findIdx? p t).map (· + 1)

/-- `p` occurs in `t` at index `i` (the slice of `t` starting at `i`
begins with `p`). -/
def occursAt (p t : List Char) (i : Nat) : Prop := p <+: t.drop i

instance (p t : List Char) (i : Nat) : Decidable (occursAt p t i) :=
  inferInstanceAs (Decidable (p <+: t.drop i))

/-- Python slice `t[a:b]` (for `a ≤ b`; empty when `b ≤ a`, as in Python). -/
def pySlice (t : List Char) (a b : Nat) : List Char := (t.drop a).take (b - a)

/-- Python `p in t`. -/
def containsSub (p t : List Char) : Bool := (findIdx? p t).isSome

/-! ### The section parser (`parse_feedback`, src/bot.py lines 152-223) -/

/-- The eight logical fields of the parser, in the declaration order of the
`sections` / `sections_to_find` dictionaries of the source. -/
inductive SectionKey where
  | gratitude
  | time_wasted
  | good_use
  | memorable_moments
  | suggestions
  | habit_patterns
  | day_summary
  | day_rating
deriving DecidableEq, Repr

/-- The `sections_to_find` table of the source: the literal header variants
searched for each field, in their list order. -/
def sections_to_find : SectionKey → List (List Char)
  | .gratitude => ["GRATITUDE:".toList, "THINGS TO BE GRATEFUL FOR:".toList]
  | .time_wasted => ["TIME INEFFICIENCY:".toList, "TIME WASTED:".toList]
  | .good_use => ["GOOD USE OF TIME:".toList, "GOOD USE:".toList]
  | .memorable_moments => ["MEMORABLE MOMENTS:".toList]
  | .suggestions => ["SUGGESTIONS FOR IMPROVEMENT:".toList, "SUGGESTIONS:".toList]
  | .habit_patterns => ["HABIT PATTERN ANALYSIS:".toList]
  | .day_summary => ["DAY SUMMARY".toList, "DAY SUMMARY (AS A STORY):".toList]
  | .day_rating => ["DAY RATING:".toList, "RATING:".toList]

/-- The field keys in dictionary declaration order. -/
def sectionKeys : List SectionKey :=
  [.gratitude, .time_wasted, .good_use, .memorable_moments, .suggestions,
   .habit_patterns, .day_summary, .day_rating]

/-- The flattened list of all header variants, in the order of the source's
comprehension `[h for headers in sections_to_find.values() for h in headers]`. -/
def allHeaders : List (List Char) :=
  sectionKeys.foldr (fun k acc => sections_to_find k ++ acc) []

/-- One iteration of the source's inner loop bounding a section's span:
if the header occurs in the content at a position smaller than the current
bound, lower the bound to that position. -/
def end_pos_step (section_content : List Char) (e : Nat) (h : List Char) : Nat :=
  match findIdx? h section_content with
  | some pos => if pos < e then pos else e
  | none => e

/-- The source's inner loop bounding a section's span: starting from
`end_pos = len(section_content)`, for every recognized header occurring in
`section_content` take the smallest first-occurrence position. -/
def end_pos (section_content : List Char) : Nat :=
  allHeaders.foldl (end_pos_step section_content) section_content.length

/-- The source's outer loop over `possible_headers`: the first header
variant (in list order) that occurs anywhere in the text. -/
def findHeader (variants : List (List Char)) (text : List Char) : Option (List Char) :=
  variants.find? (fun h => containsSub h text)

/-- Content extraction for one field (first loop of `parse_feedback`):
split at the first occurrence of the resolved header variant, truncate at
the earliest occurrence of any recognized header in the remainder, strip. -/
def extractSection (k : SectionKey) (text : List Char) : Option (List Char) :=
  match findHeader (sections_to_find k) text with
  | none => none
  | some h =>
    match findIdx? h text with
    | none => none
    | some i =>
      let section_content := text.drop (i + h.length)
      some (strip (section_content.take (end_pos section_content)))

/-- The structured record produced by the parser: the `sections` dictionary
of the source, with its eight keys. -/
structure Sections where
  gratitude : List Char
  time_wasted : List Char
  good_use : List Char
  memorable_moments : List Char
  suggestions : List Char
  habit_patterns : List Char
  day_summary : List Char
  day_rating : List Char
deriving DecidableEq, Repr

/-- The placeholder for text fields that could not be resolved. -/
def placeholderText : List Char := "No specific points mentioned.".toList

/-- The fallback rating string. -/
def sevenStr : List Char := "7".toList

/-- Initial dictionary values: empty for the text fields, `"7"` for
`day_rating`. -/
def initValue : SectionKey → List Char
  | .day_rating => sevenStr
  | _ => []

/-- One field's value after the extraction loop: the extracted content if a
header variant was found, the initial value otherwise. -/
def extractedOr (k : SectionKey) (text : List Char) : List Char :=
  match extractSection k text with
  | some c => c
  | none => initValue k

/-- The `sections` dictionary after the first loop of `parse_feedback`. -/
def sections1 (text : List Char) : Sections where
  gratitude := extractedOr .gratitude text
  time_wasted := extractedOr .time_wasted text
  good_use := extractedOr .good_use text
  memorable_moments := extractedOr .memorable_moments text
  suggestions := extractedOr .suggestions text
  habit_patterns := extractedOr .habit_patterns text
  day_summary := extractedOr .day_summary text
  day_rating := extractedOr .day_rating text

/-- `re.search(r'(\d+)(?:/10)?', s)` group 1: the maximal run of decimal
digits starting at the first digit of `s`, if any. -/
def firstDigitRun : List Char → Option (List Char)
  | [] => none
  | c :: t => if c.isDigit then some ((c :: t).takeWhile Char.isDigit) else firstDigitRun t

/-- The "special handling for rating" step: when the extracted rating text
is non-empty, keep only the leading digit group (default `"7"` when no
digits appear). -/
def applyRatingRegex (s : Sections) : Sections :=
  if s.day_rating = [] then s
  else
    match firstDigitRun s.day_rating with
    | some g => { s with day_rating := g }
    | none => { s with day_rating := sevenStr }

/-- A still-empty text field falls back to its placeholder. -/
def orPlaceholder (v : List Char) : List Char :=
  if v = [] then placeholderText else v

/-- The "ensure all sections have content" loop of `parse_feedback`. -/
def fillEmpty (s : Sections) : Sections where
  gratitude := orPlaceholder s.gratitude
  time_wasted := orPlaceholder s.time_wasted
  good_use := orPlaceholder s.good_use
  memorable_moments := orPlaceholder s.memorable_moments
  suggestions := orPlaceholder s.suggestions
  habit_patterns := orPlaceholder s.habit_patterns
  day_summary := orPlaceholder s.day_summary
  day_rating := if s.day_rating = [] then sevenStr else s.day_rating

/-- `ds` is a non-empty run of decimal digits. -/
def digitsOnly (ds : List Char) : Bool := !ds.isEmpty && ds.all Char.isDigit

/-- Numeric value of a digit run. -/
def digitsVal (ds : List Char) : Nat :=
  ds.foldl (fun a c => 10 * a + (c.toNat - 48)) 0

/-- Python `int(s)` on a string: strips whitespace, accepts an optional
sign followed by decimal digits, fails (`ValueError`) otherwise. -/
def pyInt? (s : List Char) : Option Int :=
  match strip s with
  | '+' :: ds => if digitsOnly ds then some (digitsVal ds : Int) else none
  | '-' :: ds => if digitsOnly ds then some (-(digitsVal ds : Int)) else none
  | ds => if digitsOnly ds then some (digitsVal ds : Int) else none

/-- The final "validate day rating is between 1-10" step. -/
def validateRating (s : Sections) : Sections :=
  match pyInt? s.day_rating with
  | some rating => if rating < 1 ∨ rating > 10 then { s with day_rating := sevenStr } else s
  | none => { s with day_rating := sevenStr }

/-- `parse_feedback` (src/bot.py lines 152-223): extraction loop, rating
regex, placeholder fill, rating validation. -/
def parse_feedback (text : List Char) : Sections :=
  validateRating (fillEmpty (applyRatingRegex (sections1 text)))

/-- The rating regex step as a function of the `day_rating` value alone. -/
def ratingR1 (v : List Char) : List Char :=
  if v = [] then v else
    match firstDigitRun v with
    | some g => g
    | none => sevenStr

/-- The empty-fallback step for `day_rating`. -/
def ratingR2 (v : List Char) : List Char := if v = [] then sevenStr else v

/-- The range-validation step as a function of the `day_rating` value. -/
def ratingR3 (v : List Char) : List Char :=
  match pyInt? v with
  | some rating => if rating < 1 ∨ rating > 10 then sevenStr else v
  | none => sevenStr

/-- The combined rating pipeline applied to the value the extraction loop
left in `day_rating` (regex step, empty fallback, range validation). -/
def ratingNormalize (v : List Char) : List Char := ratingR3 (ratingR2 (ratingR1 v))

/-- The record `parse_feedback` returns when nothing is recognized. -/
def placeholderSections : Sections where
  gratitude := placeholderText
  time_wasted := placeholderText
  good_use := placeholderText
  memorable_moments := placeholderText
  suggestions := placeholderText
  habit_patterns := placeholderText
  day_summary := placeholderText
  day_rating := sevenStr

/-! ### The language-model call (`analyze_day_with_openrouter`, lines 119-148) -/

/-- Outcome of the OpenRouter HTTP request, matching the `except` clauses of
the source: success with the model's reply text, timeout, request error,
malformed response (`KeyError`/`IndexError`/`ValueError`), or any other
exception. -/
inductive ApiOutcome where
  | success (content : List Char)
  | timeout
  | requestError
  | parseError
  | otherError
deriving DecidableEq, Repr

/-- `analyze_day_with_openrouter`: returns the model's reply on success and
a fixed apology string for each caught exception class; it never raises. -/
def analyze_day_with_openrouter : ApiOutcome → List Char
  | .success content => content
  | .timeout =>
      "I'm sorry, the analysis service took too long to respond. Please try again later.".toList
  | .requestError =>
      "I'm sorry, I couldn't analyze your diary entry due to a connection issue.".toList
  | .parseError =>
      "I'm sorry, there was an issue processing the analysis of your diary entry.".toList
  | .otherError =>
      "I'm sorry, an unexpected error occurred while analyzing your diary entry.".toList

/-! ### Conversation states and the entry-collection handler
(`process_diary_entry`, lines 427-542) -/

/-- The conversation states of the handler: the two named states of the
source plus the terminal `ConversationHandler.END`. -/
inductive ConvState where
  | WAITING_FOR_DIARY
  | WAITING_FOR_AUDIO_CHOICE
  | ENDED
deriving DecidableEq, Repr

/-- The keyboard shortcut text checked first by `process_diary_entry`. -/
def skipMessage : List Char := "Skip - I'll type it".toList

/-- Observable result of one invocation of `process_diary_entry`: the state
returned to the conversation handler and the side effects performed (raw
entry file written, model called, raw analysis file written, analysis
record buffered in `context.user_data`). -/
structure ProcessResult where
  next_state : ConvState
  entry_saved : Bool
  model_called : Bool
  analysis_saved : Bool
  buffered : Option Sections
deriving DecidableEq, Repr

/-- `process_diary_entry`: re-prompt (state unchanged, no side effects) on
the skip shortcut or on an entry shorter than 10 or longer than 10000
characters; otherwise save the entry, call the model (outcome `api`),
parse the reply, save the raw analysis, buffer the record and move to the
audio-preference state. -/
def process_diary_entry (diary_text : List Char) (api : ApiOutcome) : ProcessResult :=
  if diary_text = skipMessage then
    ⟨.WAITING_FOR_DIARY, false, false, false, none⟩
  else if diary_text.length < 10 then
    ⟨.WAITING_FOR_DIARY, false, false, false, none⟩
  else if diary_text.length > 10000 then
    ⟨.WAITING_FOR_DIARY, false, false, false, none⟩
  else
    ⟨.WAITING_FOR_AUDIO_CHOICE, true, true, true,
      some (parse_feedback (analyze_day_with_openrouter api))⟩

/-! ### Dates and `strftime` formatting -/

/-- A calendar date as used through `datetime.datetime.now()`. -/
structure PyDate where
  year : Nat
  month : Nat
  day : Nat
deriving DecidableEq, Repr

/-- `strftime('%B')`: full month name. -/
def monthName (m : Nat) : List Char :=
  (["January", "February", "March", "April", "May", "June", "July", "August",
    "September", "October", "November", "December"].map String.toList).getD (m - 1) []

/-- Day of the week of a Gregorian date (Sakamoto's method, 0 = Sunday),
modelling the calendar arithmetic behind `strftime('%A')`. -/
def weekdayIndex (y m d : Nat) : Nat :=
  let t := [0, 3, 2, 5, 0, 3, 5, 1, 4, 6, 2, 4]
  let y2 := if m < 3 then y - 1 else y
  (y2 + y2 / 4 - y2 / 100 + y2 / 400 + t.getD (m - 1) 0 + d) % 7

/-- `strftime('%A')`: full weekday name. -/
def weekdayName (dt : PyDate) : List Char :=
  (["Sunday", "Monday", "Tuesday", "Wednesday", "Thursday", "Friday",
    "Saturday"].map String.toList).getD (weekdayIndex dt.year dt.month dt.day) []

/-- Decimal digits of a natural number. -/
def natDigits (n : Nat) : List Char := (Nat.repr n).toList

/-- `strftime('%d')` / `('%m')`: zero-padded to two digits. -/
def pad2 (n : Nat) : List Char := if n < 10 then '0' :: natDigits n else natDigits n

/-- `strftime('%Y')`: zero-padded to four digits. -/
def pad4 (n : Nat) : List Char :=
  if n < 10 then '0' :: '0' :: '0' :: natDigits n
  else if n < 100 then '0' :: '0' :: natDigits n
  else if n < 1000 then '0' :: natDigits n
  else natDigits n

/-! ### Sanitized path construction (lines 73-98, 362-370, 519-520) -/

/-- `re.sub(r'[^\d]', '', str(user_id))`: delete every character outside
the decimal-digit class (the source's ids are ASCII, so `[^\d]` is modelled
over the ASCII digits). -/
def sub_nondigit : List Char → List Char
  | [] => []
  | c :: cs => if c.isDigit then c :: sub_nondigit cs else sub_nondigit cs

/-- Path written by `save_diary_entry`:
`DATA/Diary/<month>/<dd>_<safe_user_id>.txt`. -/
def save_diary_entry_path (user_id : List Char) (d : PyDate) : List Char :=
  "DATA/Diary/".toList ++ monthName d.month ++ "/".toList ++ pad2 d.day ++
    "_".toList ++ sub_nondigit user_id ++ ".txt".toList

/-- Path of the raw-analysis write in `process_diary_entry`:
`DATA/Diary/<month>/<dd>_<safe_user_id>_analysis.txt`. -/
def analysis_file_path (user_id : List Char) (d : PyDate) : List Char :=
  "DATA/Diary/".toList ++ monthName d.month ++ "/".toList ++ pad2 d.day ++
    "_".toList ++ sub_nondigit user_id ++ "_analysis.txt".toList

/-- Path used by both `load_user_bio` and `set_bio`:
`DATA/Users/<safe_user_id>_bio.txt`. -/
def user_bio_path (user_id : List Char) : List Char :=
  "DATA/Users/".toList ++ sub_nondigit user_id ++ "_bio.txt".toList

/-! ### The analysis-delivery handler (`send_analysis`, lines 545-670) -/

/-- The regex filter `^(Yes|No)` registered for the audio-choice state
(python-telegram-bot's `filters.Regex` uses `re.search`; the anchored
pattern therefore matches exactly the texts starting with `Yes` or `No`). -/
def audio_choice_filter (t : List Char) : Bool :=
  "Yes".toList.isPrefixOf t || "No".toList.isPrefixOf t

/-- The rating recomputed by `send_analysis` (lines 611-616): integer value
of the buffered `day_rating`, reset to 7 when unparseable or out of range. -/
def sendRating (sections : Sections) : Nat :=
  match pyInt? sections.day_rating with
  | some rating => if rating < 1 ∨ rating > 10 then 7 else rating.toNat
  | none => 7

/-- Path of the distilled diary artifact:
`DATA/DiaryEntries/<YYYY-MM-DD>_diary.txt` — date-keyed only (the
user-specific component of the source is commented out). -/
def diary_file_path (d : PyDate) : List Char :=
  "DATA/DiaryEntries/".toList ++ pad4 d.year ++ "-".toList ++ pad2 d.month ++
    "-".toList ++ pad2 d.day ++ "_diary.txt".toList

/-- Content of the distilled diary artifact (lines 640-645). -/
def diary_content (sections : Sections) (d : PyDate) : List Char :=
  "Diary Entry: ".toList ++ weekdayName d ++ ", ".toList ++ monthName d.month ++
    " ".toList ++ pad2 d.day ++ ", ".toList ++ pad4 d.year ++ "\n\n".toList ++
    "Day Rating: ".toList ++ natDigits (sendRating sections) ++ "/10\n\n".toList ++
    sections.day_summary ++ "\n\n".toList ++
    "Gratitude:\n".toList ++ sections.gratitude

/-- Observable result of `send_analysis`: the state returned, whether audio
was rendered and sent, and the single diary-artifact write (path, content). -/
structure SendResult where
  next_state : ConvState
  audio_rendered : Bool
  diary_write : List Char × List Char
deriving DecidableEq, Repr

/-- `send_analysis`: render audio exactly when the reply starts with `Yes`,
emit the sections, and write the distilled diary artifact for the date. -/
def send_analysis (choice : List Char) (sections : Sections) (d : PyDate) : SendResult where
  next_state := .ENDED
  audio_rendered := "Yes".toList.isPrefixOf choice
  diary_write := (diary_file_path d, diary_content sections d)

/-! ### Lemmas about substring search -/

theorem isPrefixOf_iff (p t : List Char) : p.isPrefixOf t = true ↔ p <+: t :=
  List.isPrefixOf_iff_prefix

theorem occursAt_drop (p t : List Char) (n j : Nat) :
    occursAt p (t.drop n) j ↔ occursAt p t (n + j) := by
  unfold occursAt
  rw [List.drop_drop]

theorem occursAt_add_length_le (p t : List Char) (i : Nat) (hp : p ≠ [])
    (h : occursAt p t i) : i + p.length ≤ t.length := by
  have h1 : p.length ≤ (t.drop i).length := h.length_le
  rw [List.length_drop] at h1
  have h2 : i ≤ t.length := by
    by_contra hc
    have hd : t.drop i = [] := List.drop_eq_nil_of_le (by omega)
    rw [occursAt, hd] at h
    exact hp (List.prefix_nil.mp h)
  have h3 : 1 ≤ p.length := by
    cases p with
    | nil => exact absurd rfl hp
    | cons _ _ => simp
  omega

theorem findIdx?_eq_some_iff (p t : List Char) (i : Nat) :
    findIdx? p t = some i ↔ occursAt p t i ∧ ∀ j, j < i → ¬occursAt p t j := by
  induction t generalizing i with
  | nil =>
    simp only [findIdx?]
    by_cases hp : p.isPrefixOf ([] : List Char)
    · rw [if_pos hp]
      have hp' : p <+: ([] : List Char) := (isPrefixOf_iff ..).mp hp
      constructor
      · intro h
        injection h with h
        subst h
        exact ⟨by simpa [occursAt] using hp', by omega⟩
      · rintro ⟨-, hmin⟩
        by_contra hne
        have hi : 0 < i := by
          rcases Nat.eq_zero_or_pos i with h | h
          · subst h; simp at hne
          · exact h
        exact hmin 0 hi (by simpa [occursAt] using hp')
    · rw [if_neg hp]
      constructor
      · intro h; cases h
      · rintro ⟨hocc, -⟩
        have hocc' : p <+: ([] : List Char) := by simpa [occursAt] using hocc
        exact absurd ((isPrefixOf_iff ..).mpr hocc') hp
  | cons c t ih =>
    simp only [findIdx?]
    by_cases hp : p.isPrefixOf (c :: t)
    · rw [if_pos hp]
      have hp' : p <+: (c :: t) := (isPrefixOf_iff ..).mp hp
      constructor
      · intro h
        injection h with h
        subst h
        exact ⟨by simpa [occursAt] using hp', by omega⟩
      · rintro ⟨-, hmin⟩
        by_contra hne
        have hi : 0 < i := by
          rcases Nat.eq_zero_or_pos i with h | h
          · subst h; simp at hne
          · exact h
        exact hmin 0 hi (by simpa [occursAt] using hp')
    · rw [if_neg hp]
      constructor
      · intro h
        cases hfi : findIdx? p t with
        | none => rw [hfi] at h; cases h
        | some i' =>
          rw [hfi] at h
          simp only [Option.map_some'] at h
          injection h with h
          obtain ⟨hocc, hmin⟩ := (ih i').mp hfi
          subst h
          refine ⟨by simpa [occursAt] using hocc, ?_⟩
          intro j hj
          cases j with
          | zero =>
            intro hc
            exact hp ((isPrefixOf_iff ..).mpr (by simpa [occursAt] using hc))
          | succ j' =>
            intro hc
            exact hmin j' (by omega) (by simpa [occursAt] using hc)
      · rintro ⟨hocc, hmin⟩
        cases i with
        | zero =>
          exact absurd ((isPrefixOf_iff ..).mpr (by simpa [occursAt] using hocc)) hp
        | succ i' =>
          have hocc' : occursAt p t i' := by simpa [occursAt] using hocc
          have hmin' : ∀ j, j < i' → ¬occursAt p t j := fun j hj hc =>
            hmin (j + 1) (by omega) (by simpa [occursAt] using hc)
          rw [(ih i').mpr ⟨hocc', hmin'⟩]
          rfl

theorem findIdx?_isSome_of_occurs (p t : List Char) (j : Nat) (h : occursAt p t j) :
    (findIdx? p t).isSome := by
  induction t generalizing j with
  | nil =>
    have h' : p <+: ([] : List Char) := by simpa [occursAt] using h
    simp [findIdx?, (isPrefixOf_iff ..).mpr h']
  | cons c t ih =>
    by_cases hp : p.isPrefixOf (c :: t)
    · simp [findIdx?, hp]
    · cases j with
      | zero =>
        exact absurd ((isPrefixOf_iff ..).mpr (by simpa [occursAt] using h)) hp
      | succ j' =>
        have h' := ih j' (by simpa [occursAt] using h)
        simp only [findIdx?, if_neg hp]
        simpa using h'

theorem findIdx?_eq_none_iff (p t : List Char) :
    findIdx? p t = none ↔ ∀ j, ¬occursAt p t j := by
  constructor
  · intro h j hocc
    have hs := findIdx?_isSome_of_occurs p t j hocc
    rw [h] at hs
    cases hs
  · intro h
    cases hfi : findIdx? p t with
    | none => rfl
    | some i => exact absurd ((findIdx?_eq_some_iff p t i).mp hfi).1 (h i)

theorem findIdx?_le_length (p t : List Char) (i : Nat) (h : findIdx? p t = some i) :
    i ≤ t.length := by
  induction t generalizing i with
  | nil =>
    simp only [findIdx?] at h
    split at h
    · injection h with h; omega
    · cases h
  | cons c t ih =>
    simp only [findIdx?] at h
    split at h
    · injection h with h; omega
    · cases hfi : findIdx? p t with
      | none => rw [hfi] at h; cases h
      | some i' =>
        rw [hfi] at h
        simp only [Option.map_some'] at h
        injection h with h
        have := ih i' hfi
        simp only [List.length_cons]
        omega

/-! ### Lemmas about `end_pos` -/

theorem end_pos_step_le (c : List Char) (e : Nat) (h : List Char) :
    end_pos_step c e h ≤ e := by
  unfold end_pos_step
  cases findIdx? h c with
  | none => simp
  | some pos => simp only; split <;> omega

theorem foldl_step_le (c : List Char) (l : List (List Char)) (a : Nat) :
    l.foldl (end_pos_step c) a ≤ a := by
  induction l generalizing a with
  | nil => simp
  | cons h0 l ih =>
    calc l.foldl (end_pos_step c) (end_pos_step c a h0) ≤ end_pos_step c a h0 := ih _
    _ ≤ a := end_pos_step_le c a h0

theorem foldl_step_spec (c : List Char) (l : List (List Char)) (a : Nat) :
    l.foldl (end_pos_step c) a = a ∨
      ∃ h ∈ l, findIdx? h c = some (l.foldl (end_pos_step c) a) := by
  induction l generalizing a with
  | nil => simp
  | cons h0 l ih =>
    simp only [List.foldl_cons]
    rcases ih (end_pos_step c a h0) with heq | ⟨h, hm, hf⟩
    · rw [heq]
      unfold end_pos_step
      cases hf0 : findIdx? h0 c with
      | none => exact Or.inl rfl
      | some pos =>
        simp only
        split
        · exact Or.inr ⟨h0, by simp, hf0⟩
        · exact Or.inl rfl
    · exact Or.inr ⟨h, by simp [hm], hf⟩

theorem foldl_step_min (c : List Char) (l : List (List Char)) (a : Nat) :
    ∀ h ∈ l, ∀ q, findIdx? h c = some q → l.foldl (end_pos_step c) a ≤ q := by
  induction l generalizing a with
  | nil => simp
  | cons h0 l ih =>
    intro h hm q hq
    simp only [List.foldl_cons]
    rcases List.mem_cons.mp hm with rfl | hm'
    · have h1 : l.foldl (end_pos_step c) (end_pos_step c a h) ≤ end_pos_step c a h :=
        foldl_step_le c l _
      have h2 : end_pos_step c a h ≤ q := by
        unfold end_pos_step
        rw [hq]
        simp only
        split <;> omega
      omega
    · exact ih _ h hm' q hq

theorem end_pos_le_length (c : List Char) : end_pos c ≤ c.length :=
  foldl_step_le c allHeaders c.length

theorem end_pos_min (c : List Char) :
    ∀ h ∈ allHeaders, ∀ q, findIdx? h c = some q → end_pos c ≤ q :=
  foldl_step_min c allHeaders c.length

theorem end_pos_spec (c : List Char) :
    end_pos c = c.length ∨ ∃ h ∈ allHeaders, findIdx? h c = some (end_pos c) :=
  foldl_step_spec c allHeaders c.length

theorem end_pos_eq (c : List Char) (p : Nat) (h0 : List Char) (hmem : h0 ∈ allHeaders)
    (hf : findIdx? h0 c = some p)
    (hmin : ∀ h ∈ allHeaders, ∀ q, findIdx? h c = some q → p ≤ q) :
    end_pos c = p := by
  have h1 : end_pos c ≤ p := end_pos_min c h0 hmem p hf
  rcases end_pos_spec c with h2 | ⟨h, hm, hfh⟩
  · have h3 : p ≤ c.length := findIdx?_le_length h0 c p hf
    omega
  · have h4 : p ≤ end_pos c := hmin h hm _ hfh
    omega

theorem end_pos_eq_length (c : List Char)
    (H : ∀ h ∈ allHeaders, findIdx? h c = none) : end_pos c = c.length := by
  rcases end_pos_spec c with h2 | ⟨h, hm, hfh⟩
  · exact h2
  · rw [H h hm] at hfh
    cases hfh

/-! ### Pinned-occurrence reasoning -/

theorem unique_occ_unbounded (h t : List Char) (b : Nat) (hne : h ≠ [])
    (H : ∀ i, i ≤ t.length → (occursAt h t i ↔ i = b)) (hb : b ≤ t.length) :
    ∀ i, occursAt h t i ↔ i = b := by
  intro i
  by_cases hi : i ≤ t.length
  · exact H i hi
  · constructor
    · intro hocc
      have := occursAt_add_length_le h t i hne hocc
      omega
    · intro he
      omega

theorem no_occ_unbounded (h t : List Char)
    (H : ∀ i, i ≤ t.length → ¬occursAt h t i) : ∀ i, ¬occursAt h t i := by
  intro i hocc
  by_cases hi : i ≤ t.length
  · exact H i hi hocc
  · by_cases hne : h = []
    · subst hne
      exact H 0 (by omega) (by simp [occursAt])
    · have := occursAt_add_length_le h t i hne hocc
      omega

theorem findIdx?_eq_of_unique (h t : List Char) (b : Nat)
    (H : ∀ i, occursAt h t i ↔ i = b) : findIdx? h t = some b := by
  rw [findIdx?_eq_some_iff]
  refine ⟨(H b).mpr rfl, ?_⟩
  intro j hj hocc
  rw [H j] at hocc
  omega

theorem findIdx?_drop_eq_of_unique (h t : List Char) (b n : Nat)
    (H : ∀ i, occursAt h t i ↔ i = b) :
    findIdx? h (t.drop n) = if n ≤ b then some (b - n) else none := by
  by_cases hnb : n ≤ b
  · rw [if_pos hnb, findIdx?_eq_some_iff]
    constructor
    · rw [occursAt_drop, H]
      omega
    · intro j hj hocc
      rw [occursAt_drop, H] at hocc
      omega
  · rw [if_neg hnb, findIdx?_eq_none_iff]
    intro j hocc
    rw [occursAt_drop, H] at hocc
    omega

theorem findIdx?_drop_eq_none (h t : List Char) (n : Nat)
    (H : ∀ i, ¬occursAt h t i) : findIdx? h (t.drop n) = none := by
  rw [findIdx?_eq_none_iff]
  intro j hocc
  rw [occursAt_drop] at hocc
  exact H _ hocc

theorem pinned_min_case (h t : List Char) (b n q p : Nat)
    (H : ∀ i, occursAt h t i ↔ i = b)
    (hq : findIdx? h (t.drop n) = some q) (harith : n ≤ b → p ≤ b - n) : p ≤ q := by
  rw [findIdx?_drop_eq_of_unique h t b n H] at hq
  by_cases hnb : n ≤ b
  · rw [if_pos hnb] at hq
    injection hq with hq
    subst hq
    exact harith hnb
  · rw [if_neg hnb] at hq
    cases hq

theorem pinned_none_case (h t : List Char) (n q : Nat) (H : ∀ i, ¬occursAt h t i)
    (hq : findIdx? h (t.drop n) = some q) : False := by
  rw [findIdx?_drop_eq_none h t n H] at hq
  cases hq

theorem pinned_drop_some (h t : List Char) (b n q : Nat)
    (H : ∀ i, occursAt h t i ↔ i = b) (hnb : n ≤ b) (hq : b - n = q) :
    findIdx? h (t.drop n) = some q := by
  rw [findIdx?_drop_eq_of_unique h t b n H, if_pos hnb, hq]

theorem pinned_drop_none (h t : List Char) (b n : Nat)
    (H : ∀ i, occursAt h t i ↔ i = b) (hnb : b < n) :
    findIdx? h (t.drop n) = none := by
  rw [findIdx?_eq_none_iff]
  intro j hocc
  rw [occursAt_drop, H] at hocc
  omega

theorem drop_append_left (a b : List Char) (n : Nat) (h : a.length = n) :
    (a ++ b).drop n = b := by
  rw [← h]
  exact List.drop_left a b

theorem drop_append_add (a b : List Char) (m n : Nat) (h : m = a.length + n) :
    (a ++ b).drop m = b.drop n := by
  subst h
  rw [← List.drop_drop, List.drop_left]

theorem allHeaders_eq : allHeaders =
    ["GRATITUDE:".toList, "THINGS TO BE GRATEFUL FOR:".toList,
     "TIME INEFFICIENCY:".toList, "TIME WASTED:".toList,
     "GOOD USE OF TIME:".toList, "GOOD USE:".toList,
     "MEMORABLE MOMENTS:".toList,
     "SUGGESTIONS FOR IMPROVEMENT:".toList, "SUGGESTIONS:".toList,
     "HABIT PATTERN ANALYSIS:".toList,
     "DAY SUMMARY".toList, "DAY SUMMARY (AS A STORY):".toList,
     "DAY RATING:".toList, "RATING:".toList] := by decide

theorem dsas_split :
    "DAY SUMMARY (AS A STORY):".toList = "DAY SUMMARY".toList ++ " (AS A STORY):".toList := by
  decide

/-! ### Lemmas about `strip` and `find?` -/

theorem dropWhile_ne_nil_of_exists (p : Char → Bool) (l : List Char)
    (h : ∃ c ∈ l, p c = false) :
    l.dropWhile p ≠ [] ∧ ∃ c ∈ l.dropWhile p, p c = false := by
  induction l with
  | nil => simp at h
  | cons a l ih =>
    by_cases hpa : p a
    · rw [List.dropWhile_cons_of_pos hpa]
      apply ih
      rcases h with ⟨c, hc, hpc⟩
      rcases List.mem_cons.mp hc with rfl | hc'
      · rw [hpa] at hpc; cases hpc
      · exact ⟨c, hc', hpc⟩
    · rw [List.dropWhile_cons_of_neg hpa]
      exact ⟨by simp, a, by simp, by simpa using hpa⟩

theorem strip_ne_nil (s : List Char) (h : ∃ c ∈ s, isSpaceChar c = false) :
    strip s ≠ [] := by
  unfold strip
  have h1 := dropWhile_ne_nil_of_exists isSpaceChar s h
  have hex : ∃ c ∈ (s.dropWhile isSpaceChar).reverse, isSpaceChar c = false := by
    rcases h1.2 with ⟨c, hc, hpc⟩
    exact ⟨c, by simpa using hc, hpc⟩
  have h2 := dropWhile_ne_nil_of_exists isSpaceChar _ hex
  simpa using h2.1

theorem find?_eq_some_split {α : Type} (p : α → Bool) (l : List α) (x : α)
    (h : l.find? p = some x) :
    p x = true ∧ ∃ l1 l2, l = l1 ++ x :: l2 ∧ ∀ y ∈ l1, p y = false := by
  induction l with
  | nil => cases h
  | cons a l ih =>
    by_cases hpa : p a
    · rw [List.find?_cons_of_pos _ hpa] at h
      injection h with h
      subst h
      exact ⟨hpa, [], l, rfl, by simp⟩
    · rw [List.find?_cons_of_neg _ hpa] at h
      obtain ⟨hx, l1, l2, heq, hl1⟩ := ih h
      subst heq
      refine ⟨hx, a :: l1, l2, rfl, ?_⟩
      intro y hy
      rcases List.mem_cons.mp hy with rfl | hy'
      · simpa using hpa
      · exact hl1 y hy'

/-! ### Decomposition of the `parse_feedback` pipeline -/

theorem applyRatingRegex_eq (s : Sections) :
    applyRatingRegex s = { s with day_rating := ratingR1 s.day_rating } := by
  unfold applyRatingRegex ratingR1
  by_cases hnil : s.day_rating = []
  · rw [if_pos hnil, if_pos hnil]
  · rw [if_neg hnil, if_neg hnil]
    cases firstDigitRun s.day_rating <;> rfl

theorem fillEmpty_eq (s : Sections) :
    fillEmpty s =
      { gratitude := orPlaceholder s.gratitude
        time_wasted := orPlaceholder s.time_wasted
        good_use := orPlaceholder s.good_use
        memorable_moments := orPlaceholder s.memorable_moments
        suggestions := orPlaceholder s.suggestions
        habit_patterns := orPlaceholder s.habit_patterns
        day_summary := orPlaceholder s.day_summary
        day_rating := ratingR2 s.day_rating } := rfl

theorem validateRating_eq (s : Sections) :
    validateRating s = { s with day_rating := ratingR3 s.day_rating } := by
  unfold validateRating ratingR3
  cases pyInt? s.day_rating with
  | some rating =>
    simp only
    by_cases hr : rating < 1 ∨ rating > 10
    · rw [if_pos hr, if_pos hr]
    · rw [if_neg hr, if_neg hr]
  | none => rfl

theorem pipeline_eq (s : Sections) :
    validateRating (fillEmpty (applyRatingRegex s)) =
      { gratitude := orPlaceholder s.gratitude
        time_wasted := orPlaceholder s.time_wasted
        good_use := orPlaceholder s.good_use
        memorable_moments := orPlaceholder s.memorable_moments
        suggestions := orPlaceholder s.suggestions
        habit_patterns := orPlaceholder s.habit_patterns
        day_summary := orPlaceholder s.day_summary
        day_rating := ratingNormalize s.day_rating } := by
  rw [applyRatingRegex_eq, fillEmpty_eq, validateRating_eq]
  rfl

theorem orPlaceholder_ne_nil (v : List Char) : orPlaceholder v ≠ [] := by
  unfold orPlaceholder
  split
  · simp [placeholderText]
  · assumption

theorem ratingR2_ne_nil (v : List Char) : ratingR2 v ≠ [] := by
  unfold ratingR2
  split
  · simp [sevenStr]
  · assumption

theorem ratingR3_ne_nil (v : List Char) (h : v ≠ []) : ratingR3 v ≠ [] := by
  unfold ratingR3
  cases pyInt? v with
  | none => simp [sevenStr]
  | some rating =>
    simp only
    split
    · simp [sevenStr]
    · exact h

theorem ratingNormalize_ne_nil (v : List Char) : ratingNormalize v ≠ [] :=
  ratingR3_ne_nil _ (ratingR2_ne_nil _)

theorem mem_allHeaders (k : SectionKey) : ∀ h ∈ sections_to_find k, h ∈ allHeaders := by
  cases k <;> decide

theorem extractSection_eq_none (k : SectionKey) (t : List Char)
    (H : ∀ h ∈ allHeaders, findIdx? h t = none) : extractSection k t = none := by
  unfold extractSection findHeader
  have hall : ∀ h ∈ sections_to_find k, containsSub h t = false := by
    intro h hm
    simp only [containsSub]
    rw [H h (mem_allHeaders k h hm)]
    rfl
  rw [List.find?_eq_none.mpr (by intro h hm; simp [hall h hm])]

theorem extractedOr_none (k : SectionKey) (t : List Char)
    (h : extractSection k t = none) : extractedOr k t = initValue k := by
  unfold extractedOr
  rw [h]

theorem extractedOr_some (k : SectionKey) (t : List Char) (c : List Char)
    (h : extractSection k t = some c) : extractedOr k t = c := by
  unfold extractedOr
  rw [h]

theorem parse_feedback_eq (text : List Char) :
    parse_feedback text =
      { gratitude := orPlaceholder (extractedOr .gratitude text)
        time_wasted := orPlaceholder (extractedOr .time_wasted text)
        good_use := orPlaceholder (extractedOr .good_use text)
        memorable_moments := orPlaceholder (extractedOr .memorable_moments text)
        suggestions := orPlaceholder (extractedOr .suggestions text)
        habit_patterns := orPlaceholder (extractedOr .habit_patterns text)
        day_summary := orPlaceholder (extractedOr .day_summary text)
        day_rating := ratingNormalize (extractedOr .day_rating text) } :=
  pipeline_eq (sections1 text)

/-! ### Digit-string lemmas for the rating pipeline -/

theorem digit_not_space (c : Char) (h : c.isDigit = true) : isSpaceChar c = false := by
  unfold isSpaceChar
  simp only [Bool.or_eq_false_iff, beq_eq_false_iff_ne, ne_eq]
  refine ⟨⟨⟨⟨⟨?_, ?_⟩, ?_⟩, ?_⟩, ?_⟩, ?_⟩ <;>
    (intro he; subst he; exact absurd h (by decide))

theorem dropWhile_eq_self_of_not (p : Char → Bool) (l : List Char)
    (h : ∀ c ∈ l, p c = false) : l.dropWhile p = l := by
  cases l with
  | nil => rfl
  | cons a l =>
    rw [List.dropWhile_cons_of_neg]
    simp [h a (by simp)]

theorem strip_of_all_nonspace (v : List Char) (h : ∀ c ∈ v, isSpaceChar c = false) :
    strip v = v := by
  unfold strip
  rw [dropWhile_eq_self_of_not _ _ h,
    dropWhile_eq_self_of_not _ _ (by intro c hc; exact h c (by simpa using hc))]
  simp

theorem pyInt?_digits (v : List Char) (h1 : v ≠ []) (h2 : v.all Char.isDigit = true) :
    pyInt? v = some (digitsVal v : Int) := by
  have hs : strip v = v := by
    apply strip_of_all_nonspace
    intro c hc
    exact digit_not_space c (by rw [List.all_eq_true] at h2; exact h2 c hc)
  unfold pyInt?
  rw [hs]
  cases v with
  | nil => exact absurd rfl h1
  | cons c cs =>
    have hc : c.isDigit = true := by
      rw [List.all_eq_true] at h2
      exact h2 c (by simp)
    split
    next ds heq =>
      exfalso
      have : c = '+' := by injection heq
      rw [this] at hc
      exact absurd hc (by decide)
    next ds heq =>
      exfalso
      have : c = '-' := by injection heq
      rw [this] at hc
      exact absurd hc (by decide)
    next =>
      rw [if_pos (by simp [digitsOnly, h2])]

theorem firstDigitRun_spec (v g : List Char) (h : firstDigitRun v = some g) :
    g ≠ [] ∧ g.all Char.isDigit = true := by
  induction v with
  | nil => cases h
  | cons c cs ih =>
    unfold firstDigitRun at h
    by_cases hc : c.isDigit
    · rw [if_pos hc] at h
      injection h with h
      subst h
      constructor
      · simp [List.takeWhile_cons_of_pos hc]
      · rw [List.all_eq_true]
        intro x hx
        exact List.mem_takeWhile_imp hx
    · rw [if_neg hc] at h
      exact ih h

theorem ratingR1_digits (v : List Char) :
    ratingR1 v = [] ∨ (ratingR1 v ≠ [] ∧ (ratingR1 v).all Char.isDigit = true) := by
  unfold ratingR1
  by_cases hnil : v = []
  · rw [if_pos hnil]
    exact Or.inl hnil
  · rw [if_neg hnil]
    cases hfd : firstDigitRun v with
    | some g => exact Or.inr (firstDigitRun_spec v g hfd)
    | none => exact Or.inr (by decide)

theorem ratingR2_digits (v : List Char)
    (h : v = [] ∨ (v ≠ [] ∧ v.all Char.isDigit = true)) :
    ratingR2 v ≠ [] ∧ (ratingR2 v).all Char.isDigit = true := by
  unfold ratingR2
  by_cases hnil : v = []
  · rw [if_pos hnil]
    exact by decide
  · rw [if_neg hnil]
    rcases h with h | h
    · exact absurd h hnil
    · exact h

theorem ratingNormalize_spec (v : List Char) :
    ratingNormalize v ≠ [] ∧ (ratingNormalize v).all Char.isDigit = true ∧
      1 ≤ digitsVal (ratingNormalize v) ∧ digitsVal (ratingNormalize v) ≤ 10 := by
  unfold ratingNormalize
  obtain ⟨hw1, hw2⟩ := ratingR2_digits _ (ratingR1_digits v)
  unfold ratingR3
  rw [pyInt?_digits _ hw1 hw2]
  simp only
  split
  · exact by decide
  next hcond =>
    refine ⟨hw1, hw2, ?_, ?_⟩ <;> omega

/-! ### Claim theorems -/

/-- Claim C1: `parse_feedback` is total (it is a Lean function, hence never
raises); for every input all 8 fields of the returned record are non-empty;
and for any input containing none of the recognized header literals every
text field is the placeholder `"No specific points mentioned."` and the
rating field is `"7"`. -/
theorem claim_C1 :
    (∀ text : List Char,
      (parse_feedback text).gratitude ≠ [] ∧
      (parse_feedback text).time_wasted ≠ [] ∧
      (parse_feedback text).good_use ≠ [] ∧
      (parse_feedback text).memorable_moments ≠ [] ∧
      (parse_feedback text).suggestions ≠ [] ∧
      (parse_feedback text).habit_patterns ≠ [] ∧
      (parse_feedback text).day_summary ≠ [] ∧
      (parse_feedback text).day_rating ≠ []) ∧
    (∀ text : List Char, (∀ h ∈ allHeaders, findIdx? h text = none) →
      parse_feedback text = placeholderSections) := by
  constructor
  · intro text
    rw [parse_feedback_eq]
    exact ⟨orPlaceholder_ne_nil _, orPlaceholder_ne_nil _, orPlaceholder_ne_nil _,
      orPlaceholder_ne_nil _, orPlaceholder_ne_nil _, orPlaceholder_ne_nil _,
      orPlaceholder_ne_nil _, ratingNormalize_ne_nil _⟩
  · intro text H
    rw [parse_feedback_eq]
    rw [extractedOr_none _ _ (extractSection_eq_none _ _ H),
      extractedOr_none _ _ (extractSection_eq_none _ _ H),
      extractedOr_none _ _ (extractSection_eq_none _ _ H),
      extractedOr_none _ _ (extractSection_eq_none _ _ H),
      extractedOr_none _ _ (extractSection_eq_none _ _ H),
      extractedOr_none _ _ (extractSection_eq_none _ _ H),
      extractedOr_none _ _ (extractSection_eq_none _ _ H),
      extractedOr_none _ _ (extractSection_eq_none _ _ H)]
    decide

/-- Witness for C1 at a concrete header-free input. -/
theorem claim_C1_witness :
    parse_feedback "walked in the park and read a book".toList = placeholderSections :=
  claim_C1.2 _ (by decide)

/-- Counterexample to claim C5 as stated: on input `"DAY RATING: 007"` the
parser returns the `day_rating` string `"007"`, which is not the decimal
string of any integer in the range `[1,10]` (nor of any natural number
below 11), because the range check converts with `int(...)` but, on
success, keeps the extracted digit string with its leading zeros. -/
theorem claim_C5_counterexample :
    (parse_feedback "DAY RATING: 007".toList).day_rating = "007".toList ∧
    "007".toList ∉ (List.range 11).map natDigits := by
  constructor
  · decide
  · decide

/-- Claim C5 (amended): for every input, the `day_rating` field returned by
`parse_feedback` is a non-empty string of decimal digits whose integer
value lies in the closed range `[1,10]`; leading zeros of the extracted
digit group are preserved, so the field need not be the canonical decimal
string of that value.  An extracted rating text of `"8/10"` yields `"8"`,
`"14/10"` falls back to `"7"` (out of range), `"abc"` falls back to `"7"`,
and `"7"` is returned whenever the rating is missing. -/
theorem claim_C5 :
    (∀ text : List Char,
      (parse_feedback text).day_rating ≠ [] ∧
      (parse_feedback text).day_rating.all Char.isDigit = true ∧
      1 ≤ digitsVal (parse_feedback text).day_rating ∧
      digitsVal (parse_feedback text).day_rating ≤ 10) ∧
    (parse_feedback "DAY RATING: 8/10".toList).day_rating = "8".toList ∧
    (parse_feedback "DAY RATING: 14/10".toList).day_rating = sevenStr ∧
    (parse_feedback "DAY RATING: abc".toList).day_rating = sevenStr ∧
    (parse_feedback "a quiet day without much to report".toList).day_rating = sevenStr := by
  refine ⟨?_, by decide, by decide, by decide, by decide⟩
  intro text
  rw [parse_feedback_eq]
  exact ratingNormalize_spec _

/-- Claim C6: in the collecting-entry state, a text message of length
exactly 10 or exactly 10000 is accepted and advances the session to the
audio-preference state (with the entry saved, the model called and the
record buffered), while a message of length 9 or 10001 is rejected: the
handler re-prompts, stays in the collecting-entry state, and performs no
side effects. -/
theorem claim_C6 (t : List Char) (api : ApiOutcome) :
    ((t.length = 10 ∨ t.length = 10000) →
      (process_diary_entry t api).next_state = ConvState.WAITING_FOR_AUDIO_CHOICE ∧
      (process_diary_entry t api).entry_saved = true ∧
      (process_diary_entry t api).model_called = true ∧
      (process_diary_entry t api).buffered.isSome = true) ∧
    ((t.length = 9 ∨ t.length = 10001) →
      process_diary_entry t api =
        ⟨ConvState.WAITING_FOR_DIARY, false, false, false, none⟩) := by
  have hskip : skipMessage.length = 19 := by decide
  constructor
  · intro hlen
    have hne : t ≠ skipMessage := by
      intro he
      rw [he, hskip] at hlen
      rcases hlen with h | h <;> omega
    rcases hlen with h | h <;>
    · unfold process_diary_entry
      rw [if_neg hne, if_neg (by omega), if_neg (by omega)]
      exact ⟨rfl, rfl, rfl, rfl⟩
  · intro hlen
    have hne : t ≠ skipMessage := by
      intro he
      rw [he, hskip] at hlen
      rcases hlen with h | h <;> omega
    rcases hlen with h | h
    · unfold process_diary_entry
      rw [if_neg hne, if_pos (by omega)]
    · unfold process_diary_entry
      rw [if_neg hne, if_neg (by omega), if_pos (by omega)]

/-- Witness for C6 at the four boundary lengths. -/
theorem claim_C6_witness :
    (process_diary_entry (List.replicate 10 'a') ApiOutcome.timeout).next_state =
      ConvState.WAITING_FOR_AUDIO_CHOICE ∧
    process_diary_entry (List.replicate 9 'a') ApiOutcome.timeout =
      ⟨ConvState.WAITING_FOR_DIARY, false, false, false, none⟩ ∧
    (process_diary_entry (List.replicate 10000 'a') ApiOutcome.timeout).next_state =
      ConvState.WAITING_FOR_AUDIO_CHOICE ∧
    process_diary_entry (List.replicate 10001 'a') ApiOutcome.timeout =
      ⟨ConvState.WAITING_FOR_DIARY, false, false, false, none⟩ :=
  ⟨((claim_C6 _ _).1 (Or.inl (List.length_replicate 10 'a'))).1,
   (claim_C6 _ _).2 (Or.inl (List.length_replicate 9 'a')),
   ((claim_C6 _ _).1 (Or.inr (List.length_replicate 10000 'a'))).1,
   (claim_C6 _ _).2 (Or.inr (List.length_replicate 10001 'a'))⟩

/-- Claim C7: when the language-model call fails in any of the four caught
ways, `analyze_day_with_openrouter` returns an apology string instead of
raising; parsing that string yields the all-placeholder record with rating
`"7"`; and `process_diary_entry` still reaches the audio-preference state
with that record buffered, rather than aborting the session. -/
theorem claim_C7 (t : List Char) (api : ApiOutcome)
    (h1 : 10 ≤ t.length) (h2 : t.length ≤ 10000) (h3 : t ≠ skipMessage)
    (h4 : api = ApiOutcome.timeout ∨ api = ApiOutcome.requestError ∨
      api = ApiOutcome.parseError ∨ api = ApiOutcome.otherError) :
    parse_feedback (analyze_day_with_openrouter api) = placeholderSections ∧
    (process_diary_entry t api).next_state = ConvState.WAITING_FOR_AUDIO_CHOICE ∧
    (process_diary_entry t api).buffered = some placeholderSections := by
  have hp : parse_feedback (analyze_day_with_openrouter api) = placeholderSections := by
    rcases h4 with rfl | rfl | rfl | rfl <;> decide
  refine ⟨hp, ?_, ?_⟩
  · unfold process_diary_entry
    rw [if_neg h3, if_neg (by omega), if_neg (by omega)]
  · unfold process_diary_entry
    rw [if_neg h3, if_neg (by omega), if_neg (by omega)]
    simp only
    rw [hp]

/-- Witness for C7 at a concrete valid entry and a request error. -/
theorem claim_C7_witness :
    parse_feedback (analyze_day_with_openrouter ApiOutcome.requestError) = placeholderSections ∧
    (process_diary_entry (List.replicate 20 'b') ApiOutcome.requestError).next_state =
      ConvState.WAITING_FOR_AUDIO_CHOICE ∧
    (process_diary_entry (List.replicate 20 'b') ApiOutcome.requestError).buffered =
      some placeholderSections :=
  claim_C7 (List.replicate 20 'b') ApiOutcome.requestError (by simp) (by simp)
    (by decide) (Or.inr (Or.inl rfl))

theorem sub_nondigit_eq_filter (uid : List Char) :
    sub_nondigit uid = uid.filter Char.isDigit := by
  induction uid with
  | nil => rfl
  | cons c cs ih =>
    unfold sub_nondigit
    rw [List.filter_cons]
    by_cases hc : c.isDigit
    · simp [hc, ih]
    · simp [hc, ih]

/-- Claim C9: for every user identifier, the user-identity component
interpolated into the paths of `save_diary_entry`, the raw-analysis write,
`set_bio` and `load_user_bio` equals the input with every non-digit
character removed, and hence consists only of decimal digits. -/
theorem claim_C9 (uid : List Char) (d : PyDate) :
    sub_nondigit uid = uid.filter Char.isDigit ∧
    (∀ c ∈ sub_nondigit uid, c.isDigit = true) ∧
    save_diary_entry_path uid d =
      "DATA/Diary/".toList ++ monthName d.month ++ "/".toList ++ pad2 d.day ++
        "_".toList ++ uid.filter Char.isDigit ++ ".txt".toList ∧
    analysis_file_path uid d =
      "DATA/Diary/".toList ++ monthName d.month ++ "/".toList ++ pad2 d.day ++
        "_".toList ++ uid.filter Char.isDigit ++ "_analysis.txt".toList ∧
    user_bio_path uid =
      "DATA/Users/".toList ++ uid.filter Char.isDigit ++ "_bio.txt".toList := by
  have hf := sub_nondigit_eq_filter uid
  refine ⟨hf, ?_, ?_, ?_, ?_⟩
  · intro c hc
    rw [hf] at hc
    exact (List.mem_filter.mp hc).2
  · unfold save_diary_entry_path
    rw [hf]
  · unfold analysis_file_path
    rw [hf]
  · unfold user_bio_path
    rw [hf]

/-- Claim C10: in the audio-preference state only replies matching the
anchored pattern `^(Yes|No)` are handled; audio is rendered if and only if
the reply starts with `Yes`; every handled reply not starting with `Yes`
(including texts like `"Nothing"` that merely begin with `No`) completes
the session with no audio rendered. -/
theorem claim_C10 (t : List Char) (s : Sections) (d : PyDate) :
    (audio_choice_filter t = true ↔ ("Yes".toList <+: t ∨ "No".toList <+: t)) ∧
    ("Yes".toList <+: t → (send_analysis t s d).audio_rendered = true) ∧
    (audio_choice_filter t = true → ¬ "Yes".toList <+: t →
      (send_analysis t s d).audio_rendered = false ∧
      (send_analysis t s d).next_state = ConvState.ENDED) := by
  refine ⟨?_, ?_, ?_⟩
  · unfold audio_choice_filter
    rw [Bool.or_eq_true]
    exact or_congr (isPrefixOf_iff ..) (isPrefixOf_iff ..)
  · intro hp
    show "Yes".toList.isPrefixOf t = true
    exact (isPrefixOf_iff ..).mpr hp
  · intro hf hny
    refine ⟨?_, rfl⟩
    show "Yes".toList.isPrefixOf t = false
    exact Bool.eq_false_iff.mpr (fun h => hny ((isPrefixOf_iff ..).mp h))

/-- Witness for C10 at the reply `"Nothing"`: handled (it starts with
`No`), session ends, no audio. -/
theorem claim_C10_witness :
    audio_choice_filter "Nothing".toList = true ∧
    (send_analysis "Nothing".toList placeholderSections ⟨2024, 5, 1⟩).audio_rendered = false ∧
    (send_analysis "Nothing".toList placeholderSections ⟨2024, 5, 1⟩).next_state =
      ConvState.ENDED := by
  have h := claim_C10 "Nothing".toList placeholderSections ⟨2024, 5, 1⟩
  have hfilter : audio_choice_filter "Nothing".toList = true := by decide
  have hres := h.2.2 hfilter (by decide)
  exact ⟨hfilter, hres.1, hres.2⟩

/-- Claim C8: at the end of a session `send_analysis` performs exactly one
distilled diary-artifact write; its path is keyed by the calendar date only
(`DATA/DiaryEntries/YYYY-MM-DD_diary.txt`, identical for every user, reply
and record); and its content is the literal layout
`Diary Entry: <weekday>, <Month> <DD>, <YYYY>`, blank line,
`Day Rating: <N>/10` with `N` the validated rating (always in `[1,10]`),
blank line, the day-summary text, blank line, and a `Gratitude:` block
holding the gratitude text on the following line. -/
theorem claim_C8 (choice : List Char) (s : Sections) (d : PyDate) :
    (send_analysis choice s d).diary_write =
      ("DATA/DiaryEntries/".toList ++ pad4 d.year ++ "-".toList ++ pad2 d.month ++
        "-".toList ++ pad2 d.day ++ "_diary.txt".toList,
       "Diary Entry: ".toList ++ weekdayName d ++ ", ".toList ++ monthName d.month ++
        " ".toList ++ pad2 d.day ++ ", ".toList ++ pad4 d.year ++ "\n\n".toList ++
        "Day Rating: ".toList ++ natDigits (sendRating s) ++ "/10\n\n".toList ++
        s.day_summary ++ "\n\n".toList ++ "Gratitude:\n".toList ++ s.gratitude) ∧
    1 ≤ sendRating s ∧ sendRating s ≤ 10 ∧
    (∀ choice2 s2, (send_analysis choice2 s2 d).diary_write.1 =
      (send_analysis choice s d).diary_write.1) := by
  have hb : 1 ≤ sendRating s ∧ sendRating s ≤ 10 := by
    unfold sendRating
    split
    · split <;> omega
    · omega
  exact ⟨rfl, hb.1, hb.2, fun _ _ => rfl⟩

theorem allHeaders_ne_nil : ∀ h ∈ allHeaders, h ≠ [] := by decide

theorem extractSection_eq_of (k : SectionKey) (t h : List Char) (i : Nat)
    (hres : findHeader (sections_to_find k) t = some h)
    (hidx : findIdx? h t = some i) :
    extractSection k t =
      some (strip ((t.drop (i + h.length)).take (end_pos (t.drop (i + h.length))))) := by
  unfold extractSection
  split
  next heq => rw [hres] at heq; cases heq
  next h2 heq =>
    rw [hres] at heq
    injection heq with heq
    subst heq
    split
    next heq2 => rw [hidx] at heq2; cases heq2
    next i2 heq2 =>
      rw [hidx] at heq2
      injection heq2 with heq2
      subst heq2
      rfl

theorem containsSub_false_iff (v t : List Char) :
    containsSub v t = false ↔ findIdx? v t = none := by
  unfold containsSub
  cases findIdx? v t <;> simp

/-- Counterexample to claim C4 as stated: in
`"THINGS TO BE GRATEFUL FOR: alpha GRATITUDE: beta"` the first-occurring
gratitude header variant is `"THINGS TO BE GRATEFUL FOR:"` at position 0,
yet the parser resolves the field from `"GRATITUDE:"` (position 33), the
first variant in the declared list that occurs at all, and returns
`"beta"`, not the content `"alpha"` that follows the earliest variant. -/
theorem claim_C4_counterexample :
    findIdx? "THINGS TO BE GRATEFUL FOR:".toList
        "THINGS TO BE GRATEFUL FOR: alpha GRATITUDE: beta".toList = some 0 ∧
    findIdx? "GRATITUDE:".toList
        "THINGS TO BE GRATEFUL FOR: alpha GRATITUDE: beta".toList = some 33 ∧
    findHeader (sections_to_find SectionKey.gratitude)
        "THINGS TO BE GRATEFUL FOR: alpha GRATITUDE: beta".toList =
      some "GRATITUDE:".toList ∧
    (parse_feedback "THINGS TO BE GRATEFUL FOR: alpha GRATITUDE: beta".toList).gratitude =
      "beta".toList ∧
    strip (pySlice "THINGS TO BE GRATEFUL FOR: alpha GRATITUDE: beta".toList 26 33) =
      "alpha".toList ∧
    "beta".toList ≠ "alpha".toList := by
  refine ⟨by decide, by decide, by decide, by decide, by decide, by decide⟩

/-- Claim C4 (amended): for every input and every field that has at least
one variant present, the parser resolves the field from the first variant
in the field's declared variant list that occurs anywhere in the text (all
earlier-listed variants being absent) — not from the variant whose
occurrence position is smallest — and the field's content is taken
strictly after the first occurrence of that resolved variant. -/
theorem claim_C4 (t : List Char) (k : SectionKey) (h : List Char)
    (hres : findHeader (sections_to_find k) t = some h) :
    (∃ l1 l2, sections_to_find k = l1 ++ h :: l2 ∧ ∀ v ∈ l1, findIdx? v t = none) ∧
    ∃ p1, occursAt h t p1 ∧ (∀ q, q < p1 → ¬occursAt h t q) ∧
      extractSection k t =
        some (strip ((t.drop (p1 + h.length)).take (end_pos (t.drop (p1 + h.length))))) := by
  obtain ⟨hph, l1, l2, hsplit, hl1⟩ := find?_eq_some_split _ _ _ hres
  constructor
  · refine ⟨l1, l2, hsplit, ?_⟩
    intro v hv
    exact (containsSub_false_iff v t).mp (hl1 v hv)
  · have hsome : (findIdx? h t).isSome = true := by
      simpa [containsSub] using hph
    obtain ⟨p1, hp1⟩ := Option.isSome_iff_exists.mp hsome
    obtain ⟨hocc, hmin⟩ := (findIdx?_eq_some_iff ..).mp hp1
    exact ⟨p1, hocc, fun q hq => hmin q hq, extractSection_eq_of k t h p1 hres hp1⟩

/-- Witness for C4 at a concrete input where the resolved variant is the
first listed one. -/
theorem claim_C4_witness :
    findHeader (sections_to_find SectionKey.gratitude) "GRATITUDE: fresh air".toList =
      some "GRATITUDE:".toList ∧
    ((∃ l1 l2, sections_to_find SectionKey.gratitude = l1 ++ "GRATITUDE:".toList :: l2 ∧
        ∀ v ∈ l1, findIdx? v "GRATITUDE: fresh air".toList = none) ∧
      ∃ p1, occursAt "GRATITUDE:".toList "GRATITUDE: fresh air".toList p1 ∧
        (∀ q, q < p1 → ¬occursAt "GRATITUDE:".toList "GRATITUDE: fresh air".toList q) ∧
        extractSection SectionKey.gratitude "GRATITUDE: fresh air".toList =
          some (strip (("GRATITUDE: fresh air".toList.drop
              (p1 + "GRATITUDE:".toList.length)).take
            (end_pos ("GRATITUDE: fresh air".toList.drop
              (p1 + "GRATITUDE:".toList.length)))))) :=
  ⟨by decide, claim_C4 "GRATITUDE: fresh air".toList SectionKey.gratitude
    "GRATITUDE:".toList (by decide)⟩

/-- Counterexample to claim C3 as stated: in `"DAY RATING: 8"` the resolved
header `"DAY RATING:"` occurs at `p1 = 0`, and the earliest later
occurrence of a recognized header (`"RATING:"`, contained inside
`"DAY RATING:"`) is at `p2 = 4 > p1` (the earliest occurrence of any header
in the text from position 1 onward is at `1 + end_pos` of the remainder
`= 4`); yet the extracted content is `"8"`, not the substring from
`p1 + len(H1) = 11` up to `p2 = 4`, which is empty.  The code only scans
for boundary headers after the end of the matched header, and trims the
result. -/
theorem claim_C3_counterexample :
    findHeader (sections_to_find SectionKey.day_rating) "DAY RATING: 8".toList =
      some "DAY RATING:".toList ∧
    findIdx? "DAY RATING:".toList "DAY RATING: 8".toList = some 0 ∧
    "RATING:".toList ∈ allHeaders ∧
    findIdx? "RATING:".toList "DAY RATING: 8".toList = some 4 ∧
    end_pos ("DAY RATING: 8".toList.drop 1) = 3 ∧
    extractSection SectionKey.day_rating "DAY RATING: 8".toList = some "8".toList ∧
    pySlice "DAY RATING: 8".toList 11 4 = [] ∧
    "8".toList ≠ ([] : List Char) :=
  ⟨by decide, by decide, by decide, by decide, by decide, by decide, by decide, by decide⟩

/-- Claim C3 (amended): header-boundary property.  For every text and
field, let `H1` be the variant the parser resolves for the field and `p1`
its first occurrence.  If some recognized header (of any field) occurs at a
position `p2 ≥ p1 + len(H1)` — occurrences starting inside `H1` itself do
not count — and `p2` is the earliest such position, then the extracted
content is exactly the substring of the text from `p1 + len(H1)` up to but
excluding `p2`, trimmed of surrounding whitespace; if no recognized header
occurs at or after `p1 + len(H1)`, the content is the substring running to
the end of the text, trimmed of surrounding whitespace. -/
theorem claim_C3 (t : List Char) (k : SectionKey) (h1 : List Char) (p1 : Nat)
    (hres : findHeader (sections_to_find k) t = some h1)
    (hidx : findIdx? h1 t = some p1) :
    (∃ p2, (∃ h2 ∈ allHeaders, occursAt h2 t p2) ∧ p1 + h1.length ≤ p2 ∧
      (∀ q, p1 + h1.length ≤ q → q < p2 → ∀ h2 ∈ allHeaders, ¬occursAt h2 t q) ∧
      extractSection k t = some (strip (pySlice t (p1 + h1.length) p2))) ∨
    ((∀ q, p1 + h1.length ≤ q → ∀ h2 ∈ allHeaders, ¬occursAt h2 t q) ∧
      extractSection k t = some (strip (t.drop (p1 + h1.length)))) := by
  have hext := extractSection_eq_of k t h1 p1 hres hidx
  by_cases hex : ∃ h2 ∈ allHeaders, (findIdx? h2 (t.drop (p1 + h1.length))).isSome = true
  · left
    obtain ⟨h2, hm2, hs2⟩ := hex
    obtain ⟨j2, hj2⟩ := Option.isSome_iff_exists.mp hs2
    have hne2 : h2 ≠ [] := allHeaders_ne_nil h2 hm2
    have hocc2 := ((findIdx?_eq_some_iff ..).mp hj2).1
    have hlen2 := occursAt_add_length_le _ _ _ hne2 hocc2
    have hone : 1 ≤ h2.length := by
      cases h2 with
      | nil => exact absurd rfl hne2
      | cons _ _ => simp
    have hlt : j2 < (t.drop (p1 + h1.length)).length := by omega
    have hle := end_pos_min (t.drop (p1 + h1.length)) h2 hm2 j2 hj2
    rcases end_pos_spec (t.drop (p1 + h1.length)) with heq | ⟨h0, hm0, hf0⟩
    · exact absurd heq (by omega)
    · refine ⟨p1 + h1.length + end_pos (t.drop (p1 + h1.length)), ⟨h0, hm0, ?_⟩,
        by omega, ?_, ?_⟩
      · have hocc0 := ((findIdx?_eq_some_iff ..).mp hf0).1
        rw [occursAt_drop] at hocc0
        exact hocc0
      · intro q hq1 hq2 h3 hm3 hocc3
        have hj : occursAt h3 (t.drop (p1 + h1.length)) (q - (p1 + h1.length)) := by
          rw [occursAt_drop, Nat.add_sub_cancel' hq1]
          exact hocc3
        obtain ⟨j3, hj3⟩ := Option.isSome_iff_exists.mp (findIdx?_isSome_of_occurs _ _ _ hj)
        have hmin3 := ((findIdx?_eq_some_iff ..).mp hj3).2
        have hle3 : j3 ≤ q - (p1 + h1.length) := by
          by_contra hc
          exact hmin3 _ (by omega) hj
        have := end_pos_min (t.drop (p1 + h1.length)) h3 hm3 j3 hj3
        omega
      · rw [hext]
        unfold pySlice
        rw [Nat.add_sub_cancel_left]
  · right
    have hnone : ∀ h2 ∈ allHeaders, findIdx? h2 (t.drop (p1 + h1.length)) = none := by
      intro h2 hm
      cases hfi : findIdx? h2 (t.drop (p1 + h1.length)) with
      | none => rfl
      | some x => exact absurd ⟨h2, hm, by rw [hfi]; rfl⟩ hex
    constructor
    · intro q hq h2 hm2 hocc2
      have hj : occursAt h2 (t.drop (p1 + h1.length)) (q - (p1 + h1.length)) := by
        rw [occursAt_drop, Nat.add_sub_cancel' hq]
        exact hocc2
      have hs := findIdx?_isSome_of_occurs _ _ _ hj
      rw [hnone h2 hm2] at hs
      cases hs
    · rw [hext, end_pos_eq_length _ hnone, List.take_length]

/-- Witness for C3 at a concrete input whose remainder contains a later
header. -/
theorem claim_C3_witness :
    ((∃ p2, (∃ h2 ∈ allHeaders, occursAt h2 "GRATITUDE: sun DAY RATING: 9".toList p2) ∧
        0 + "GRATITUDE:".toList.length ≤ p2 ∧
        (∀ q, 0 + "GRATITUDE:".toList.length ≤ q → q < p2 →
          ∀ h2 ∈ allHeaders, ¬occursAt h2 "GRATITUDE: sun DAY RATING: 9".toList q) ∧
        extractSection SectionKey.gratitude "GRATITUDE: sun DAY RATING: 9".toList =
          some (strip (pySlice "GRATITUDE: sun DAY RATING: 9".toList
            (0 + "GRATITUDE:".toList.length) p2))) ∨
      ((∀ q, 0 + "GRATITUDE:".toList.length ≤ q →
          ∀ h2 ∈ allHeaders, ¬occursAt h2 "GRATITUDE: sun DAY RATING: 9".toList q) ∧
        extractSection SectionKey.gratitude "GRATITUDE: sun DAY RATING: 9".toList =
          some (strip ("GRATITUDE: sun DAY RATING: 9".toList.drop
            (0 + "GRATITUDE:".toList.length))))) ∧
    extractSection SectionKey.gratitude "GRATITUDE: sun DAY RATING: 9".toList =
      some "sun".toList :=
  ⟨claim_C3 "GRATITUDE: sun DAY RATING: 9".toList SectionKey.gratitude
    "GRATITUDE:".toList 0 (by decide) (by decide), by decide⟩


/-- Claim C2 (amended): for every text built from the 8 canonical headers
of the rubric prompt in declared field order with content between
consecutive headers (the contents containing no recognized header
occurrence, and trimming to something non-empty), `parse_feedback`
recovers, for the six fields gratitude, time-inefficiency, good-time-use,
memorable-moments, suggestions and habit-patterns, exactly the content
between the field's header and the next header, trimmed of surrounding
whitespace.  The `day_summary` field is NOT the bare content: because the
parser matches the shorter variant `"DAY SUMMARY"` first, the field
carries the residue `" (AS A STORY):"` of the canonical header in front
of the content (then trimmed).  The `day_rating` field is not the bare
trimmed content either, but its numeric normalization (leading digit
group, range-validated). -/
theorem claim_C2 (c1 c2 c3 c4 c5 c6 c7 c8 T : List Char)
    (hT : T = "GRATITUDE:".toList ++ c1 ++ "TIME INEFFICIENCY:".toList ++ c2 ++ "GOOD USE OF TIME:".toList ++ c3 ++ "MEMORABLE MOMENTS:".toList ++ c4 ++ "SUGGESTIONS FOR IMPROVEMENT:".toList ++ c5 ++ "HABIT PATTERN ANALYSIS:".toList ++ c6 ++ "DAY SUMMARY (AS A STORY):".toList ++ c7 ++ "DAY RATING:".toList ++ c8)
    (hg : ∀ i, i ≤ T.length → (occursAt "GRATITUDE:".toList T i ↔ i = 0))
    (hth : ∀ i, i ≤ T.length → ¬occursAt "THINGS TO BE GRATEFUL FOR:".toList T i)
    (hti : ∀ i, i ≤ T.length → (occursAt "TIME INEFFICIENCY:".toList T i ↔ i = 10 + c1.length))
    (htw : ∀ i, i ≤ T.length → ¬occursAt "TIME WASTED:".toList T i)
    (hgu : ∀ i, i ≤ T.length → (occursAt "GOOD USE OF TIME:".toList T i ↔ i = 28 + c1.length + c2.length))
    (hgu2 : ∀ i, i ≤ T.length → ¬occursAt "GOOD USE:".toList T i)
    (hmem : ∀ i, i ≤ T.length → (occursAt "MEMORABLE MOMENTS:".toList T i ↔ i = 45 + c1.length + c2.length + c3.length))
    (hsu : ∀ i, i ≤ T.length → (occursAt "SUGGESTIONS FOR IMPROVEMENT:".toList T i ↔ i = 63 + c1.length + c2.length + c3.length + c4.length))
    (hsu2 : ∀ i, i ≤ T.length → ¬occursAt "SUGGESTIONS:".toList T i)
    (hhp : ∀ i, i ≤ T.length → (occursAt "HABIT PATTERN ANALYSIS:".toList T i ↔ i = 91 + c1.length + c2.length + c3.length + c4.length + c5.length))
    (hds : ∀ i, i ≤ T.length → (occursAt "DAY SUMMARY".toList T i ↔ i = 114 + c1.length + c2.length + c3.length + c4.length + c5.length + c6.length))
    (hdsas : ∀ i, i ≤ T.length → (occursAt "DAY SUMMARY (AS A STORY):".toList T i ↔ i = 114 + c1.length + c2.length + c3.length + c4.length + c5.length + c6.length))
    (hdr : ∀ i, i ≤ T.length → (occursAt "DAY RATING:".toList T i ↔ i = 139 + c1.length + c2.length + c3.length + c4.length + c5.length + c6.length + c7.length))
    (hr : ∀ i, i ≤ T.length → (occursAt "RATING:".toList T i ↔ i = 143 + c1.length + c2.length + c3.length + c4.length + c5.length + c6.length + c7.length))
    (hne1 : strip c1 ≠ [])
    (hne2 : strip c2 ≠ [])
    (hne3 : strip c3 ≠ [])
    (hne4 : strip c4 ≠ [])
    (hne5 : strip c5 ≠ [])
    (hne6 : strip c6 ≠ [])
    :
    parse_feedback T =
      { gratitude := strip c1
        time_wasted := strip c2
        good_use := strip c3
        memorable_moments := strip c4
        suggestions := strip c5
        habit_patterns := strip c6
        day_summary := strip (" (AS A STORY):".toList ++ c7)
        day_rating := ratingNormalize (strip c8) } := by
  have hL1 : ("GRATITUDE:".toList).length = 10 := by decide
  have hL2 : ("TIME INEFFICIENCY:".toList).length = 18 := by decide
  have hL3 : ("GOOD USE OF TIME:".toList).length = 17 := by decide
  have hL4 : ("MEMORABLE MOMENTS:".toList).length = 18 := by decide
  have hL5 : ("SUGGESTIONS FOR IMPROVEMENT:".toList).length = 28 := by decide
  have hL6 : ("HABIT PATTERN ANALYSIS:".toList).length = 23 := by decide
  have hL7 : ("DAY SUMMARY (AS A STORY):".toList).length = 25 := by decide
  have hL8 : ("DAY RATING:".toList).length = 11 := by decide
  have hLds : ("DAY SUMMARY".toList).length = 11 := by decide
  have hLres : (" (AS A STORY):".toList).length = 14 := by decide
  have hlen : T.length = 150 + c1.length + c2.length + c3.length + c4.length + c5.length + c6.length + c7.length + c8.length := by
    rw [hT]
    simp [List.length_append]
    omega
  have Ug : ∀ i, occursAt "GRATITUDE:".toList T i ↔ i = 0 :=
    unique_occ_unbounded _ _ _ (by decide) hg (by omega)
  have Uth : ∀ i, ¬occursAt "THINGS TO BE GRATEFUL FOR:".toList T i := no_occ_unbounded _ _ hth
  have Uti : ∀ i, occursAt "TIME INEFFICIENCY:".toList T i ↔ i = 10 + c1.length :=
    unique_occ_unbounded _ _ _ (by decide) hti (by omega)
  have Utw : ∀ i, ¬occursAt "TIME WASTED:".toList T i := no_occ_unbounded _ _ htw
  have Ugu : ∀ i, occursAt "GOOD USE OF TIME:".toList T i ↔ i = 28 + c1.length + c2.length :=
    unique_occ_unbounded _ _ _ (by decide) hgu (by omega)
  have Ugu2 : ∀ i, ¬occursAt "GOOD USE:".toList T i := no_occ_unbounded _ _ hgu2
  have Umm : ∀ i, occursAt "MEMORABLE MOMENTS:".toList T i ↔ i = 45 + c1.length + c2.length + c3.length :=
    unique_occ_unbounded _ _ _ (by decide) hmem (by omega)
  have Usu : ∀ i, occursAt "SUGGESTIONS FOR IMPROVEMENT:".toList T i ↔ i = 63 + c1.length + c2.length + c3.length + c4.length :=
    unique_occ_unbounded _ _ _ (by decide) hsu (by omega)
  have Usu2 : ∀ i, ¬occursAt "SUGGESTIONS:".toList T i := no_occ_unbounded _ _ hsu2
  have Uhp : ∀ i, occursAt "HABIT PATTERN ANALYSIS:".toList T i ↔ i = 91 + c1.length + c2.length + c3.length + c4.length + c5.length :=
    unique_occ_unbounded _ _ _ (by decide) hhp (by omega)
  have Uds : ∀ i, occursAt "DAY SUMMARY".toList T i ↔ i = 114 + c1.length + c2.length + c3.length + c4.length + c5.length + c6.length :=
    unique_occ_unbounded _ _ _ (by decide) hds (by omega)
  have Udsas : ∀ i, occursAt "DAY SUMMARY (AS A STORY):".toList T i ↔ i = 114 + c1.length + c2.length + c3.length + c4.length + c5.length + c6.length :=
    unique_occ_unbounded _ _ _ (by decide) hdsas (by omega)
  have Udr : ∀ i, occursAt "DAY RATING:".toList T i ↔ i = 139 + c1.length + c2.length + c3.length + c4.length + c5.length + c6.length + c7.length :=
    unique_occ_unbounded _ _ _ (by decide) hdr (by omega)
  have Ur : ∀ i, occursAt "RATING:".toList T i ↔ i = 143 + c1.length + c2.length + c3.length + c4.length + c5.length + c6.length + c7.length :=
    unique_occ_unbounded _ _ _ (by decide) hr (by omega)
  have Fg : findIdx? "GRATITUDE:".toList T = some (0) := findIdx?_eq_of_unique _ _ _ Ug
  have Fti : findIdx? "TIME INEFFICIENCY:".toList T = some (10 + c1.length) := findIdx?_eq_of_unique _ _ _ Uti
  have Fgu : findIdx? "GOOD USE OF TIME:".toList T = some (28 + c1.length + c2.length) := findIdx?_eq_of_unique _ _ _ Ugu
  have Fmm : findIdx? "MEMORABLE MOMENTS:".toList T = some (45 + c1.length + c2.length + c3.length) := findIdx?_eq_of_unique _ _ _ Umm
  have Fsu : findIdx? "SUGGESTIONS FOR IMPROVEMENT:".toList T = some (63 + c1.length + c2.length + c3.length + c4.length) := findIdx?_eq_of_unique _ _ _ Usu
  have Fhp : findIdx? "HABIT PATTERN ANALYSIS:".toList T = some (91 + c1.length + c2.length + c3.length + c4.length + c5.length) := findIdx?_eq_of_unique _ _ _ Uhp
  have Fds : findIdx? "DAY SUMMARY".toList T = some (114 + c1.length + c2.length + c3.length + c4.length + c5.length + c6.length) := findIdx?_eq_of_unique _ _ _ Uds
  have Fdr : findIdx? "DAY RATING:".toList T = some (139 + c1.length + c2.length + c3.length + c4.length + c5.length + c6.length + c7.length) := findIdx?_eq_of_unique _ _ _ Udr
  have R1 : findHeader (sections_to_find SectionKey.gratitude) T = some "GRATITUDE:".toList := by
    show List.find? (fun h => containsSub h T) ["GRATITUDE:".toList, "THINGS TO BE GRATEFUL FOR:".toList] = some "GRATITUDE:".toList
    exact List.find?_cons_of_pos _ (by unfold containsSub; rw [Fg]; rfl)
  have R2 : findHeader (sections_to_find SectionKey.time_wasted) T = some "TIME INEFFICIENCY:".toList := by
    show List.find? (fun h => containsSub h T) ["TIME INEFFICIENCY:".toList, "TIME WASTED:".toList] = some "TIME INEFFICIENCY:".toList
    exact List.find?_cons_of_pos _ (by unfold containsSub; rw [Fti]; rfl)
  have R3 : findHeader (sections_to_find SectionKey.good_use) T = some "GOOD USE OF TIME:".toList := by
    show List.find? (fun h => containsSub h T) ["GOOD USE OF TIME:".toList, "GOOD USE:".toList] = some "GOOD USE OF TIME:".toList
    exact List.find?_cons_of_pos _ (by unfold containsSub; rw [Fgu]; rfl)
  have R4 : findHeader (sections_to_find SectionKey.memorable_moments) T = some "MEMORABLE MOMENTS:".toList := by
    show List.find? (fun h => containsSub h T) ["MEMORABLE MOMENTS:".toList] = some "MEMORABLE MOMENTS:".toList
    exact List.find?_cons_of_pos _ (by unfold containsSub; rw [Fmm]; rfl)
  have R5 : findHeader (sections_to_find SectionKey.suggestions) T = some "SUGGESTIONS FOR IMPROVEMENT:".toList := by
    show List.find? (fun h => containsSub h T) ["SUGGESTIONS FOR IMPROVEMENT:".toList, "SUGGESTIONS:".toList] = some "SUGGESTIONS FOR IMPROVEMENT:".toList
    exact List.find?_cons_of_pos _ (by unfold containsSub; rw [Fsu]; rfl)
  have R6 : findHeader (sections_to_find SectionKey.habit_patterns) T = some "HABIT PATTERN ANALYSIS:".toList := by
    show List.find? (fun h => containsSub h T) ["HABIT PATTERN ANALYSIS:".toList] = some "HABIT PATTERN ANALYSIS:".toList
    exact List.find?_cons_of_pos _ (by unfold containsSub; rw [Fhp]; rfl)
  have R7 : findHeader (sections_to_find SectionKey.day_summary) T = some "DAY SUMMARY".toList := by
    show List.find? (fun h => containsSub h T) ["DAY SUMMARY".toList, "DAY SUMMARY (AS A STORY):".toList] = some "DAY SUMMARY".toList
    exact List.find?_cons_of_pos _ (by unfold containsSub; rw [Fds]; rfl)
  have R8 : findHeader (sections_to_find SectionKey.day_rating) T = some "DAY RATING:".toList := by
    show List.find? (fun h => containsSub h T) ["DAY RATING:".toList, "RATING:".toList] = some "DAY RATING:".toList
    exact List.find?_cons_of_pos _ (by unfold containsSub; rw [Fdr]; rfl)
  have D1 : T.drop (10) = c1 ++ ("TIME INEFFICIENCY:".toList ++ (c2 ++ ("GOOD USE OF TIME:".toList ++ (c3 ++ ("MEMORABLE MOMENTS:".toList ++ (c4 ++ ("SUGGESTIONS FOR IMPROVEMENT:".toList ++ (c5 ++ ("HABIT PATTERN ANALYSIS:".toList ++ (c6 ++ ("DAY SUMMARY (AS A STORY):".toList ++ (c7 ++ ("DAY RATING:".toList ++ (c8)))))))))))))) := by
    rw [hT]
    simp only [List.append_assoc]
    exact drop_append_left _ _ _ hL1
  have D2 : T.drop (28 + c1.length) = c2 ++ ("GOOD USE OF TIME:".toList ++ (c3 ++ ("MEMORABLE MOMENTS:".toList ++ (c4 ++ ("SUGGESTIONS FOR IMPROVEMENT:".toList ++ (c5 ++ ("HABIT PATTERN ANALYSIS:".toList ++ (c6 ++ ("DAY SUMMARY (AS A STORY):".toList ++ (c7 ++ ("DAY RATING:".toList ++ (c8)))))))))))) := by
    rw [hT]
    simp only [List.append_assoc]
    rw [drop_append_add _ _ _ (c1.length + 18) (by rw [hL1]; omega)]
    rw [drop_append_add _ _ _ (18) (by omega)]
    exact drop_append_left _ _ _ hL2
  have D3 : T.drop (45 + c1.length + c2.length) = c3 ++ ("MEMORABLE MOMENTS:".toList ++ (c4 ++ ("SUGGESTIONS FOR IMPROVEMENT:".toList ++ (c5 ++ ("HABIT PATTERN ANALYSIS:".toList ++ (c6 ++ ("DAY SUMMARY (AS A STORY):".toList ++ (c7 ++ ("DAY RATING:".toList ++ (c8)))))))))) := by
    rw [hT]
    simp only [List.append_assoc]
    rw [drop_append_add _ _ _ (c1.length + 18 + c2.length + 17) (by rw [hL1]; omega)]
    rw [drop_append_add _ _ _ (18 + c2.length + 17) (by omega)]
    rw [drop_append_add _ _ _ (c2.length + 17) (by rw [hL2]; omega)]
    rw [drop_append_add _ _ _ (17) (by omega)]
    exact drop_append_left _ _ _ hL3
  have D4 : T.drop (63 + c1.length + c2.length + c3.length) = c4 ++ ("SUGGESTIONS FOR IMPROVEMENT:".toList ++ (c5 ++ ("HABIT PATTERN ANALYSIS:".toList ++ (c6 ++ ("DAY SUMMARY (AS A STORY):".toList ++ (c7 ++ ("DAY RATING:".toList ++ (c8)))))))) := by
    rw [hT]
    simp only [List.append_assoc]
    rw [drop_append_add _ _ _ (c1.length + 18 + c2.length + 17 + c3.length + 18) (by rw [hL1]; omega)]
    rw [drop_append_add _ _ _ (18 + c2.length + 17 + c3.length + 18) (by omega)]
    rw [drop_append_add _ _ _ (c2.length + 17 + c3.length + 18) (by rw [hL2]; omega)]
    rw [drop_append_add _ _ _ (17 + c3.length + 18) (by omega)]
    rw [drop_append_add _ _ _ (c3.length + 18) (by rw [hL3]; omega)]
    rw [drop_append_add _ _ _ (18) (by omega)]
    exact drop_append_left _ _ _ hL4
  have D5 : T.drop (91 + c1.length + c2.length + c3.length + c4.length) = c5 ++ ("HABIT PATTERN ANALYSIS:".toList ++ (c6 ++ ("DAY SUMMARY (AS A STORY):".toList ++ (c7 ++ ("DAY RATING:".toList ++ (c8)))))) := by
    rw [hT]
    simp only [List.append_assoc]
    rw [drop_append_add _ _ _ (c1.length + 18 + c2.length + 17 + c3.length + 18 + c4.length + 28) (by rw [hL1]; omega)]
    rw [drop_append_add _ _ _ (18 + c2.length + 17 + c3.length + 18 + c4.length + 28) (by omega)]
    rw [drop_append_add _ _ _ (c2.length + 17 + c3.length + 18 + c4.length + 28) (by rw [hL2]; omega)]
    rw [drop_append_add _ _ _ (17 + c3.length + 18 + c4.length + 28) (by omega)]
    rw [drop_append_add _ _ _ (c3.length + 18 + c4.length + 28) (by rw [hL3]; omega)]
    rw [drop_append_add _ _ _ (18 + c4.length + 28) (by omega)]
    rw [drop_append_add _ _ _ (c4.length + 28) (by rw [hL4]; omega)]
    rw [drop_append_add _ _ _ (28) (by omega)]
    exact drop_append_left _ _ _ hL5
  have D6 : T.drop (114 + c1.length + c2.length + c3.length + c4.length + c5.length) = c6 ++ ("DAY SUMMARY (AS A STORY):".toList ++ (c7 ++ ("DAY RATING:".toList ++ (c8)))) := by
    rw [hT]
    simp only [List.append_assoc]
    rw [drop_append_add _ _ _ (c1.length + 18 + c2.length + 17 + c3.length + 18 + c4.length + 28 + c5.length + 23) (by rw [hL1]; omega)]
    rw [drop_append_add _ _ _ (18 + c2.length + 17 + c3.length + 18 + c4.length + 28 + c5.length + 23) (by omega)]
    rw [drop_append_add _ _ _ (c2.length + 17 + c3.length + 18 + c4.length + 28 + c5.length + 23) (by rw [hL2]; omega)]
    rw [drop_append_add _ _ _ (17 + c3.length + 18 + c4.length + 28 + c5.length + 23) (by omega)]
    rw [drop_append_add _ _ _ (c3.length + 18 + c4.length + 28 + c5.length + 23) (by rw [hL3]; omega)]
    rw [drop_append_add _ _ _ (18 + c4.length + 28 + c5.length + 23) (by omega)]
    rw [drop_append_add _ _ _ (c4.length + 28 + c5.length + 23) (by rw [hL4]; omega)]
    rw [drop_append_add _ _ _ (28 + c5.length + 23) (by omega)]
    rw [drop_append_add _ _ _ (c5.length + 23) (by rw [hL5]; omega)]
    rw [drop_append_add _ _ _ (23) (by omega)]
    exact drop_append_left _ _ _ hL6
  have D7 : T.drop (125 + c1.length + c2.length + c3.length + c4.length + c5.length + c6.length) = " (AS A STORY):".toList ++ (c7 ++ ("DAY RATING:".toList ++ c8)) := by
    rw [hT, dsas_split]
    simp only [List.append_assoc]
    rw [drop_append_add _ _ _ (c1.length + 18 + c2.length + 17 + c3.length + 18 + c4.length + 28 + c5.length + 23 + c6.length + 11) (by rw [hL1]; omega)]
    rw [drop_append_add _ _ _ (18 + c2.length + 17 + c3.length + 18 + c4.length + 28 + c5.length + 23 + c6.length + 11) (by omega)]
    rw [drop_append_add _ _ _ (c2.length + 17 + c3.length + 18 + c4.length + 28 + c5.length + 23 + c6.length + 11) (by rw [hL2]; omega)]
    rw [drop_append_add _ _ _ (17 + c3.length + 18 + c4.length + 28 + c5.length + 23 + c6.length + 11) (by omega)]
    rw [drop_append_add _ _ _ (c3.length + 18 + c4.length + 28 + c5.length + 23 + c6.length + 11) (by rw [hL3]; omega)]
    rw [drop_append_add _ _ _ (18 + c4.length + 28 + c5.length + 23 + c6.length + 11) (by omega)]
    rw [drop_append_add _ _ _ (c4.length + 28 + c5.length + 23 + c6.length + 11) (by rw [hL4]; omega)]
    rw [drop_append_add _ _ _ (28 + c5.length + 23 + c6.length + 11) (by omega)]
    rw [drop_append_add _ _ _ (c5.length + 23 + c6.length + 11) (by rw [hL5]; omega)]
    rw [drop_append_add _ _ _ (23 + c6.length + 11) (by omega)]
    rw [drop_append_add _ _ _ (c6.length + 11) (by rw [hL6]; omega)]
    rw [drop_append_add _ _ _ (11) (by omega)]
    exact drop_append_left _ _ _ hLds
  have D8 : T.drop (150 + c1.length + c2.length + c3.length + c4.length + c5.length + c6.length + c7.length) = c8 := by
    rw [hT]
    simp only [List.append_assoc]
    rw [drop_append_add _ _ _ (c1.length + 18 + c2.length + 17 + c3.length + 18 + c4.length + 28 + c5.length + 23 + c6.length + 25 + c7.length + 11) (by rw [hL1]; omega)]
    rw [drop_append_add _ _ _ (18 + c2.length + 17 + c3.length + 18 + c4.length + 28 + c5.length + 23 + c6.length + 25 + c7.length + 11) (by omega)]
    rw [drop_append_add _ _ _ (c2.length + 17 + c3.length + 18 + c4.length + 28 + c5.length + 23 + c6.length + 25 + c7.length + 11) (by rw [hL2]; omega)]
    rw [drop_append_add _ _ _ (17 + c3.length + 18 + c4.length + 28 + c5.length + 23 + c6.length + 25 + c7.length + 11) (by omega)]
    rw [drop_append_add _ _ _ (c3.length + 18 + c4.length + 28 + c5.length + 23 + c6.length + 25 + c7.length + 11) (by rw [hL3]; omega)]
    rw [drop_append_add _ _ _ (18 + c4.length + 28 + c5.length + 23 + c6.length + 25 + c7.length + 11) (by omega)]
    rw [drop_append_add _ _ _ (c4.length + 28 + c5.length + 23 + c6.length + 25 + c7.length + 11) (by rw [hL4]; omega)]
    rw [drop_append_add _ _ _ (28 + c5.length + 23 + c6.length + 25 + c7.length + 11) (by omega)]
    rw [drop_append_add _ _ _ (c5.length + 23 + c6.length + 25 + c7.length + 11) (by rw [hL5]; omega)]
    rw [drop_append_add _ _ _ (23 + c6.length + 25 + c7.length + 11) (by omega)]
    rw [drop_append_add _ _ _ (c6.length + 25 + c7.length + 11) (by rw [hL6]; omega)]
    rw [drop_append_add _ _ _ (25 + c7.length + 11) (by omega)]
    rw [drop_append_add _ _ _ (c7.length + 11) (by rw [hL7]; omega)]
    rw [drop_append_add _ _ _ (11) (by omega)]
    exact drop_append_left _ _ _ hL8
  have W1 : findIdx? "TIME INEFFICIENCY:".toList (T.drop (10)) = some (c1.length) :=
    pinned_drop_some _ _ _ _ _ Uti (by omega) (by omega)
  have M1 : ∀ h2 ∈ allHeaders, ∀ q, findIdx? h2 (T.drop (10)) = some q → c1.length ≤ q := by
    intro h2 hm q hq
    rw [allHeaders_eq] at hm
    simp only [List.mem_cons, List.not_mem_nil, or_false] at hm
    rcases hm with rfl | rfl | rfl | rfl | rfl | rfl | rfl | rfl | rfl | rfl | rfl | rfl | rfl | rfl
    · exact pinned_min_case _ _ _ _ _ _ Ug hq (by intro hco; omega)
    · exact (pinned_none_case _ _ _ _ Uth hq).elim
    · exact pinned_min_case _ _ _ _ _ _ Uti hq (by intro hco; omega)
    · exact (pinned_none_case _ _ _ _ Utw hq).elim
    · exact pinned_min_case _ _ _ _ _ _ Ugu hq (by intro hco; omega)
    · exact (pinned_none_case _ _ _ _ Ugu2 hq).elim
    · exact pinned_min_case _ _ _ _ _ _ Umm hq (by intro hco; omega)
    · exact pinned_min_case _ _ _ _ _ _ Usu hq (by intro hco; omega)
    · exact (pinned_none_case _ _ _ _ Usu2 hq).elim
    · exact pinned_min_case _ _ _ _ _ _ Uhp hq (by intro hco; omega)
    · exact pinned_min_case _ _ _ _ _ _ Uds hq (by intro hco; omega)
    · exact pinned_min_case _ _ _ _ _ _ Udsas hq (by intro hco; omega)
    · exact pinned_min_case _ _ _ _ _ _ Udr hq (by intro hco; omega)
    · exact pinned_min_case _ _ _ _ _ _ Ur hq (by intro hco; omega)
  have W2 : findIdx? "GOOD USE OF TIME:".toList (T.drop (28 + c1.length)) = some (c2.length) :=
    pinned_drop_some _ _ _ _ _ Ugu (by omega) (by omega)
  have M2 : ∀ h2 ∈ allHeaders, ∀ q, findIdx? h2 (T.drop (28 + c1.length)) = some q → c2.length ≤ q := by
    intro h2 hm q hq
    rw [allHeaders_eq] at hm
    simp only [List.mem_cons, List.not_mem_nil, or_false] at hm
    rcases hm with rfl | rfl | rfl | rfl | rfl | rfl | rfl | rfl | rfl | rfl | rfl | rfl | rfl | rfl
    · exact pinned_min_case _ _ _ _ _ _ Ug hq (by intro hco; omega)
    · exact (pinned_none_case _ _ _ _ Uth hq).elim
    · exact pinned_min_case _ _ _ _ _ _ Uti hq (by intro hco; omega)
    · exact (pinned_none_case _ _ _ _ Utw hq).elim
    · exact pinned_min_case _ _ _ _ _ _ Ugu hq (by intro hco; omega)
    · exact (pinned_none_case _ _ _ _ Ugu2 hq).elim
    · exact pinned_min_case _ _ _ _ _ _ Umm hq (by intro hco; omega)
    · exact pinned_min_case _ _ _ _ _ _ Usu hq (by intro hco; omega)
    · exact (pinned_none_case _ _ _ _ Usu2 hq).elim
    · exact pinned_min_case _ _ _ _ _ _ Uhp hq (by intro hco; omega)
    · exact pinned_min_case _ _ _ _ _ _ Uds hq (by intro hco; omega)
    · exact pinned_min_case _ _ _ _ _ _ Udsas hq (by intro hco; omega)
    · exact pinned_min_case _ _ _ _ _ _ Udr hq (by intro hco; omega)
    · exact pinned_min_case _ _ _ _ _ _ Ur hq (by intro hco; omega)
  have W3 : findIdx? "MEMORABLE MOMENTS:".toList (T.drop (45 + c1.length + c2.length)) = some (c3.length) :=
    pinned_drop_some _ _ _ _ _ Umm (by omega) (by omega)
  have M3 : ∀ h2 ∈ allHeaders, ∀ q, findIdx? h2 (T.drop (45 + c1.length + c2.length)) = some q → c3.length ≤ q := by
    intro h2 hm q hq
    rw [allHeaders_eq] at hm
    simp only [List.mem_cons, List.not_mem_nil, or_false] at hm
    rcases hm with rfl | rfl | rfl | rfl | rfl | rfl | rfl | rfl | rfl | rfl | rfl | rfl | rfl | rfl
    · exact pinned_min_case _ _ _ _ _ _ Ug hq (by intro hco; omega)
    · exact (pinned_none_case _ _ _ _ Uth hq).elim
    · exact pinned_min_case _ _ _ _ _ _ Uti hq (by intro hco; omega)
    · exact (pinned_none_case _ _ _ _ Utw hq).elim
    · exact pinned_min_case _ _ _ _ _ _ Ugu hq (by intro hco; omega)
    · exact (pinned_none_case _ _ _ _ Ugu2 hq).elim
    · exact pinned_min_case _ _ _ _ _ _ Umm hq (by intro hco; omega)
    · exact pinned_min_case _ _ _ _ _ _ Usu hq (by intro hco; omega)
    · exact (pinned_none_case _ _ _ _ Usu2 hq).elim
    · exact pinned_min_case _ _ _ _ _ _ Uhp hq (by intro hco; omega)
    · exact pinned_min_case _ _ _ _ _ _ Uds hq (by intro hco; omega)
    · exact pinned_min_case _ _ _ _ _ _ Udsas hq (by intro hco; omega)
    · exact pinned_min_case _ _ _ _ _ _ Udr hq (by intro hco; omega)
    · exact pinned_min_case _ _ _ _ _ _ Ur hq (by intro hco; omega)
  have W4 : findIdx? "SUGGESTIONS FOR IMPROVEMENT:".toList (T.drop (63 + c1.length + c2.length + c3.length)) = some (c4.length) :=
    pinned_drop_some _ _ _ _ _ Usu (by omega) (by omega)
  have M4 : ∀ h2 ∈ allHeaders, ∀ q, findIdx? h2 (T.drop (63 + c1.length + c2.length + c3.length)) = some q → c4.length ≤ q := by
    intro h2 hm q hq
    rw [allHeaders_eq] at hm
    simp only [List.mem_cons, List.not_mem_nil, or_false] at hm
    rcases hm with rfl | rfl | rfl | rfl | rfl | rfl | rfl | rfl | rfl | rfl | rfl | rfl | rfl | rfl
    · exact pinned_min_case _ _ _ _ _ _ Ug hq (by intro hco; omega)
    · exact (pinned_none_case _ _ _ _ Uth hq).elim
    · exact pinned_min_case _ _ _ _ _ _ Uti hq (by intro hco; omega)
    · exact (pinned_none_case _ _ _ _ Utw hq).elim
    · exact pinned_min_case _ _ _ _ _ _ Ugu hq (by intro hco; omega)
    · exact (pinned_none_case _ _ _ _ Ugu2 hq).elim
    · exact pinned_min_case _ _ _ _ _ _ Umm hq (by intro hco; omega)
    · exact pinned_min_case _ _ _ _ _ _ Usu hq (by intro hco; omega)
    · exact (pinned_none_case _ _ _ _ Usu2 hq).elim
    · exact pinned_min_case _ _ _ _ _ _ Uhp hq (by intro hco; omega)
    · exact pinned_min_case _ _ _ _ _ _ Uds hq (by intro hco; omega)
    · exact pinned_min_case _ _ _ _ _ _ Udsas hq (by intro hco; omega)
    · exact pinned_min_case _ _ _ _ _ _ Udr hq (by intro hco; omega)
    · exact pinned_min_case _ _ _ _ _ _ Ur hq (by intro hco; omega)
  have W5 : findIdx? "HABIT PATTERN ANALYSIS:".toList (T.drop (91 + c1.length + c2.length + c3.length + c4.length)) = some (c5.length) :=
    pinned_drop_some _ _ _ _ _ Uhp (by omega) (by omega)
  have M5 : ∀ h2 ∈ allHeaders, ∀ q, findIdx? h2 (T.drop (91 + c1.length + c2.length + c3.length + c4.length)) = some q → c5.length ≤ q := by
    intro h2 hm q hq
    rw [allHeaders_eq] at hm
    simp only [List.mem_cons, List.not_mem_nil, or_false] at hm
    rcases hm with rfl | rfl | rfl | rfl | rfl | rfl | rfl | rfl | rfl | rfl | rfl | rfl | rfl | rfl
    · exact pinned_min_case _ _ _ _ _ _ Ug hq (by intro hco; omega)
    · exact (pinned_none_case _ _ _ _ Uth hq).elim
    · exact pinned_min_case _ _ _ _ _ _ Uti hq (by intro hco; omega)
    · exact (pinned_none_case _ _ _ _ Utw hq).elim
    · exact pinned_min_case _ _ _ _ _ _ Ugu hq (by intro hco; omega)
    · exact (pinned_none_case _ _ _ _ Ugu2 hq).elim
    · exact pinned_min_case _ _ _ _ _ _ Umm hq (by intro hco; omega)
    · exact pinned_min_case _ _ _ _ _ _ Usu hq (by intro hco; omega)
    · exact (pinned_none_case _ _ _ _ Usu2 hq).elim
    · exact pinned_min_case _ _ _ _ _ _ Uhp hq (by intro hco; omega)
    · exact pinned_min_case _ _ _ _ _ _ Uds hq (by intro hco; omega)
    · exact pinned_min_case _ _ _ _ _ _ Udsas hq (by intro hco; omega)
    · exact pinned_min_case _ _ _ _ _ _ Udr hq (by intro hco; omega)
    · exact pinned_min_case _ _ _ _ _ _ Ur hq (by intro hco; omega)
  have W6 : findIdx? "DAY SUMMARY".toList (T.drop (114 + c1.length + c2.length + c3.length + c4.length + c5.length)) = some (c6.length) :=
    pinned_drop_some _ _ _ _ _ Uds (by omega) (by omega)
  have M6 : ∀ h2 ∈ allHeaders, ∀ q, findIdx? h2 (T.drop (114 + c1.length + c2.length + c3.length + c4.length + c5.length)) = some q → c6.length ≤ q := by
    intro h2 hm q hq
    rw [allHeaders_eq] at hm
    simp only [List.mem_cons, List.not_mem_nil, or_false] at hm
    rcases hm with rfl | rfl | rfl | rfl | rfl | rfl | rfl | rfl | rfl | rfl | rfl | rfl | rfl | rfl
    · exact pinned_min_case _ _ _ _ _ _ Ug hq (by intro hco; omega)
    · exact (pinned_none_case _ _ _ _ Uth hq).elim
    · exact pinned_min_case _ _ _ _ _ _ Uti hq (by intro hco; omega)
    · exact (pinned_none_case _ _ _ _ Utw hq).elim
    · exact pinned_min_case _ _ _ _ _ _ Ugu hq (by intro hco; omega)
    · exact (pinned_none_case _ _ _ _ Ugu2 hq).elim
    · exact pinned_min_case _ _ _ _ _ _ Umm hq (by intro hco; omega)
    · exact pinned_min_case _ _ _ _ _ _ Usu hq (by intro hco; omega)
    · exact (pinned_none_case _ _ _ _ Usu2 hq).elim
    · exact pinned_min_case _ _ _ _ _ _ Uhp hq (by intro hco; omega)
    · exact pinned_min_case _ _ _ _ _ _ Uds hq (by intro hco; omega)
    · exact pinned_min_case _ _ _ _ _ _ Udsas hq (by intro hco; omega)
    · exact pinned_min_case _ _ _ _ _ _ Udr hq (by intro hco; omega)
    · exact pinned_min_case _ _ _ _ _ _ Ur hq (by intro hco; omega)
  have W7 : findIdx? "DAY RATING:".toList (T.drop (125 + c1.length + c2.length + c3.length + c4.length + c5.length + c6.length)) = some (14 + c7.length) :=
    pinned_drop_some _ _ _ _ _ Udr (by omega) (by omega)
  have M7 : ∀ h2 ∈ allHeaders, ∀ q, findIdx? h2 (T.drop (125 + c1.length + c2.length + c3.length + c4.length + c5.length + c6.length)) = some q → 14 + c7.length ≤ q := by
    intro h2 hm q hq
    rw [allHeaders_eq] at hm
    simp only [List.mem_cons, List.not_mem_nil, or_false] at hm
    rcases hm with rfl | rfl | rfl | rfl | rfl | rfl | rfl | rfl | rfl | rfl | rfl | rfl | rfl | rfl
    · exact pinned_min_case _ _ _ _ _ _ Ug hq (by intro hco; omega)
    · exact (pinned_none_case _ _ _ _ Uth hq).elim
    · exact pinned_min_case _ _ _ _ _ _ Uti hq (by intro hco; omega)
    · exact (pinned_none_case _ _ _ _ Utw hq).elim
    · exact pinned_min_case _ _ _ _ _ _ Ugu hq (by intro hco; omega)
    · exact (pinned_none_case _ _ _ _ Ugu2 hq).elim
    · exact pinned_min_case _ _ _ _ _ _ Umm hq (by intro hco; omega)
    · exact pinned_min_case _ _ _ _ _ _ Usu hq (by intro hco; omega)
    · exact (pinned_none_case _ _ _ _ Usu2 hq).elim
    · exact pinned_min_case _ _ _ _ _ _ Uhp hq (by intro hco; omega)
    · exact pinned_min_case _ _ _ _ _ _ Uds hq (by intro hco; omega)
    · exact pinned_min_case _ _ _ _ _ _ Udsas hq (by intro hco; omega)
    · exact pinned_min_case _ _ _ _ _ _ Udr hq (by intro hco; omega)
    · exact pinned_min_case _ _ _ _ _ _ Ur hq (by intro hco; omega)
  have E1 : extractSection SectionKey.gratitude T = some (strip c1) := by
    have e := extractSection_eq_of SectionKey.gratitude T "GRATITUDE:".toList (0) R1 Fg
    rw [show (0) + ("GRATITUDE:".toList).length = 10 from by rw [hL1]] at e
    rw [end_pos_eq (T.drop (10)) (c1.length) "TIME INEFFICIENCY:".toList (by decide) W1 M1] at e
    rw [D1, List.take_left] at e
    exact e
  have E2 : extractSection SectionKey.time_wasted T = some (strip c2) := by
    have e := extractSection_eq_of SectionKey.time_wasted T "TIME INEFFICIENCY:".toList (10 + c1.length) R2 Fti
    rw [show (10 + c1.length) + ("TIME INEFFICIENCY:".toList).length = 28 + c1.length from by rw [hL2]; omega] at e
    rw [end_pos_eq (T.drop (28 + c1.length)) (c2.length) "GOOD USE OF TIME:".toList (by decide) W2 M2] at e
    rw [D2, List.take_left] at e
    exact e
  have E3 : extractSection SectionKey.good_use T = some (strip c3) := by
    have e := extractSection_eq_of SectionKey.good_use T "GOOD USE OF TIME:".toList (28 + c1.length + c2.length) R3 Fgu
    rw [show (28 + c1.length + c2.length) + ("GOOD USE OF TIME:".toList).length = 45 + c1.length + c2.length from by rw [hL3]; omega] at e
    rw [end_pos_eq (T.drop (45 + c1.length + c2.length)) (c3.length) "MEMORABLE MOMENTS:".toList (by decide) W3 M3] at e
    rw [D3, List.take_left] at e
    exact e
  have E4 : extractSection SectionKey.memorable_moments T = some (strip c4) := by
    have e := extractSection_eq_of SectionKey.memorable_moments T "MEMORABLE MOMENTS:".toList (45 + c1.length + c2.length + c3.length) R4 Fmm
    rw [show (45 + c1.length + c2.length + c3.length) + ("MEMORABLE MOMENTS:".toList).length = 63 + c1.length + c2.length + c3.length from by rw [hL4]; omega] at e
    rw [end_pos_eq (T.drop (63 + c1.length + c2.length + c3.length)) (c4.length) "SUGGESTIONS FOR IMPROVEMENT:".toList (by decide) W4 M4] at e
    rw [D4, List.take_left] at e
    exact e
  have E5 : extractSection SectionKey.suggestions T = some (strip c5) := by
    have e := extractSection_eq_of SectionKey.suggestions T "SUGGESTIONS FOR IMPROVEMENT:".toList (63 + c1.length + c2.length + c3.length + c4.length) R5 Fsu
    rw [show (63 + c1.length + c2.length + c3.length + c4.length) + ("SUGGESTIONS FOR IMPROVEMENT:".toList).length = 91 + c1.length + c2.length + c3.length + c4.length from by rw [hL5]; omega] at e
    rw [end_pos_eq (T.drop (91 + c1.length + c2.length + c3.length + c4.length)) (c5.length) "HABIT PATTERN ANALYSIS:".toList (by decide) W5 M5] at e
    rw [D5, List.take_left] at e
    exact e
  have E6 : extractSection SectionKey.habit_patterns T = some (strip c6) := by
    have e := extractSection_eq_of SectionKey.habit_patterns T "HABIT PATTERN ANALYSIS:".toList (91 + c1.length + c2.length + c3.length + c4.length + c5.length) R6 Fhp
    rw [show (91 + c1.length + c2.length + c3.length + c4.length + c5.length) + ("HABIT PATTERN ANALYSIS:".toList).length = 114 + c1.length + c2.length + c3.length + c4.length + c5.length from by rw [hL6]; omega] at e
    rw [end_pos_eq (T.drop (114 + c1.length + c2.length + c3.length + c4.length + c5.length)) (c6.length) "DAY SUMMARY".toList (by decide) W6 M6] at e
    rw [D6, List.take_left] at e
    exact e
  have E7 : extractSection SectionKey.day_summary T = some (strip (" (AS A STORY):".toList ++ c7)) := by
    have e := extractSection_eq_of SectionKey.day_summary T "DAY SUMMARY".toList (114 + c1.length + c2.length + c3.length + c4.length + c5.length + c6.length) R7 Fds
    rw [show (114 + c1.length + c2.length + c3.length + c4.length + c5.length + c6.length) + ("DAY SUMMARY".toList).length = 125 + c1.length + c2.length + c3.length + c4.length + c5.length + c6.length from by rw [hLds]; omega] at e
    rw [end_pos_eq (T.drop (125 + c1.length + c2.length + c3.length + c4.length + c5.length + c6.length)) (14 + c7.length) "DAY RATING:".toList (by decide) W7 M7] at e
    rw [D7] at e
    rw [show 14 + c7.length = (" (AS A STORY):".toList).length + c7.length from by rw [hLres]] at e
    rw [List.take_append, List.take_left] at e
    exact e
  have N8 : ∀ h2 ∈ allHeaders, findIdx? h2 (T.drop (150 + c1.length + c2.length + c3.length + c4.length + c5.length + c6.length + c7.length)) = none := by
    intro h2 hm
    rw [allHeaders_eq] at hm
    simp only [List.mem_cons, List.not_mem_nil, or_false] at hm
    rcases hm with rfl | rfl | rfl | rfl | rfl | rfl | rfl | rfl | rfl | rfl | rfl | rfl | rfl | rfl
    · exact pinned_drop_none _ _ _ _ Ug (by omega)
    · exact findIdx?_drop_eq_none _ _ _ Uth
    · exact pinned_drop_none _ _ _ _ Uti (by omega)
    · exact findIdx?_drop_eq_none _ _ _ Utw
    · exact pinned_drop_none _ _ _ _ Ugu (by omega)
    · exact findIdx?_drop_eq_none _ _ _ Ugu2
    · exact pinned_drop_none _ _ _ _ Umm (by omega)
    · exact pinned_drop_none _ _ _ _ Usu (by omega)
    · exact findIdx?_drop_eq_none _ _ _ Usu2
    · exact pinned_drop_none _ _ _ _ Uhp (by omega)
    · exact pinned_drop_none _ _ _ _ Uds (by omega)
    · exact pinned_drop_none _ _ _ _ Udsas (by omega)
    · exact pinned_drop_none _ _ _ _ Udr (by omega)
    · exact pinned_drop_none _ _ _ _ Ur (by omega)
  have E8 : extractSection SectionKey.day_rating T = some (strip c8) := by
    have e := extractSection_eq_of SectionKey.day_rating T "DAY RATING:".toList (139 + c1.length + c2.length + c3.length + c4.length + c5.length + c6.length + c7.length) R8 Fdr
    rw [show (139 + c1.length + c2.length + c3.length + c4.length + c5.length + c6.length + c7.length) + ("DAY RATING:".toList).length = 150 + c1.length + c2.length + c3.length + c4.length + c5.length + c6.length + c7.length from by rw [hL8]; omega] at e
    rw [end_pos_eq_length _ N8, List.take_length] at e
    rw [D8] at e
    exact e
  rw [parse_feedback_eq]
  rw [extractedOr_some _ _ _ E1, extractedOr_some _ _ _ E2, extractedOr_some _ _ _ E3,
    extractedOr_some _ _ _ E4, extractedOr_some _ _ _ E5, extractedOr_some _ _ _ E6,
    extractedOr_some _ _ _ E7, extractedOr_some _ _ _ E8]
  have hne7 : strip (" (AS A STORY):".toList ++ c7) ≠ [] :=
    strip_ne_nil _ ⟨'(', List.mem_append.mpr (Or.inl (by decide)), by decide⟩
  unfold orPlaceholder
  rw [if_neg hne1, if_neg hne2, if_neg hne3, if_neg hne4, if_neg hne5, if_neg hne6,
    if_neg hne7]

/-- Counterexample to claim C2 as stated: in a text containing all 8
canonical headers of the rubric prompt in declared order with content
between them, the `day_summary` field is `"(AS A STORY): g"`, not the
content `"g"` between the canonical header `"DAY SUMMARY (AS A STORY):"`
and `"DAY RATING:"` (the parser matches the shorter variant
`"DAY SUMMARY"` and keeps the residue), and the `day_rating` field is the
normalized `"8"`, not the content `"8/10"`. -/
theorem claim_C2_counterexample :
    (parse_feedback ("GRATITUDE: a TIME INEFFICIENCY: b GOOD USE OF TIME: c " ++
        "MEMORABLE MOMENTS: d SUGGESTIONS FOR IMPROVEMENT: e HABIT PATTERN ANALYSIS: f " ++
        "DAY SUMMARY (AS A STORY): g DAY RATING: 8/10").toList).day_summary =
      "(AS A STORY): g".toList ∧
    "(AS A STORY): g".toList ≠ "g".toList ∧
    (parse_feedback ("GRATITUDE: a TIME INEFFICIENCY: b GOOD USE OF TIME: c " ++
        "MEMORABLE MOMENTS: d SUGGESTIONS FOR IMPROVEMENT: e HABIT PATTERN ANALYSIS: f " ++
        "DAY SUMMARY (AS A STORY): g DAY RATING: 8/10").toList).day_rating =
      "8".toList ∧
    "8".toList ≠ "8/10".toList :=
  ⟨by decide, by decide, by decide, by decide⟩

/-- Witness for C2 at concrete contents. -/
theorem claim_C2_witness :
    parse_feedback ("GRATITUDE:".toList ++ " sun ".toList ++
        "TIME INEFFICIENCY:".toList ++ " naps ".toList ++
        "GOOD USE OF TIME:".toList ++ " code ".toList ++
        "MEMORABLE MOMENTS:".toList ++ " tea ".toList ++
        "SUGGESTIONS FOR IMPROVEMENT:".toList ++ " walk ".toList ++
        "HABIT PATTERN ANALYSIS:".toList ++ " late ".toList ++
        "DAY SUMMARY (AS A STORY):".toList ++ " calm ".toList ++
        "DAY RATING:".toList ++ " 8/10 ".toList) =
      { gratitude := strip " sun ".toList
        time_wasted := strip " naps ".toList
        good_use := strip " code ".toList
        memorable_moments := strip " tea ".toList
        suggestions := strip " walk ".toList
        habit_patterns := strip " late ".toList
        day_summary := strip (" (AS A STORY):".toList ++ " calm ".toList)
        day_rating := ratingNormalize (strip " 8/10 ".toList) } :=
  claim_C2 " sun ".toList " naps ".toList " code ".toList " tea ".toList " walk ".toList
    " late ".toList " calm ".toList " 8/10 ".toList _ rfl
    (by decide) (by decide) (by decide) (by decide) (by decide) (by decide) (by decide)
    (by decide) (by decide) (by decide) (by decide) (by decide) (by decide) (by decide)
    (by decide) (by decide) (by decide) (by decide) (by decide) (by decide)

end DiaryBot
